import Mathlib

/-!
# VRTunnellingPro: the motion-to-vignette core and the preset swap

A shallow embedding of `UVRTunnellingPro` (Private/VRTP.cpp): the preset
functions `CacheSettings`, `InitFromPreset`, `SetPresetData`, `ApplyPreset`,
`UpdatePostProcessSettings`, the per-frame `CalculateMotion`, and `TickComponent`
with `PollControllerState`, `InitCapture` and `InitSkybox`.

Conventions of the embedding.

* A `float` is an exact rational (`ℚ`): rounding and the non-finite values of
  IEEE arithmetic are not represented.  A division whose divisor the source
  does not guard goes through `FMath.Div`, which leaves the quotient by zero
  unspecified (`FMath.DivByZero`), so that nothing proved below rests on a
  convention for `x / 0`.
* Square root and arc cosine are not rational functions; they are fields of
  the `FMath` record that every function using them takes as an argument.
* A member function of the component is a function from the component state
  (`UVRTunnellingPro`) to the component state.  Writes to the dynamic material
  instance are appended to its call log, oldest first.
-/

namespace VRTP

/-! ## Engine numerics -/

/-- The numeric primitives of the engine that exact rational arithmetic cannot
express, together with the unspecified result of a division by zero. -/
structure FMath where
  /-- Stands for `FMath::Sqrt`. -/
  Sqrt : ℚ → ℚ
  /-- Stands for `FMath::InvSqrt`. -/
  InvSqrt : ℚ → ℚ
  /-- Stands for `FMath::RadiansToDegrees(FMath::Acos(x))`. -/
  AcosDegrees : ℚ → ℚ
  /-- The value the machine produces for `a / 0`. -/
  DivByZero : ℚ → ℚ

/-- Floating-point division `A / B` with an unguarded divisor. -/
def FMath.Div (M : FMath) (A B : ℚ) : ℚ :=
  if B = 0 then M.DivByZero A else A / B

/-- Modelled from the spec: the engine constant `UE_SMALL_NUMBER` (1e-8), the
small-number threshold of `FInterpTo`, `IsNearlyZero` and `Normalize`; the engine
headers are not part of the sources. -/
def UE_SMALL_NUMBER : ℚ := 1 / 100000000

/-- Modelled from the spec: `FMath::Abs` of the engine. -/
def Abs (A : ℚ) : ℚ := if A < 0 then -A else A

/-- Modelled from the spec: `FMath::Clamp(X, Min, Max)` of the engine, which
saturates `X` to the interval from `Min` to `Max`. -/
def Clamp (X Min Max : ℚ) : ℚ :=
  if X < Min then Min else if X < Max then X else Max

/-- Modelled from the spec: `FMath::IsNearlyEqual(A, B, ErrorTolerance)` of the
engine, the tolerance test `|A - B| <= ErrorTolerance` that detects a degenerate
range. -/
def IsNearlyEqual (A B ErrorTolerance : ℚ) : Bool :=
  decide (Abs (A - B) ≤ ErrorTolerance)

/-- Modelled from the spec: `FMath::IsNearlyZero(Value)` of the engine with its
default tolerance. -/
def IsNearlyZero (Value : ℚ) : Bool :=
  decide (Abs Value ≤ UE_SMALL_NUMBER)

/-- Modelled from the spec: `FMath::GetRangePct(Range, Value)` of the engine, the
position of `Value` inside the range as a fraction. -/
def GetRangePct (Range : ℚ × ℚ) (Value : ℚ) : ℚ :=
  let Divisor := Range.2 - Range.1
  if IsNearlyZero Divisor then (if Value ≥ Range.2 then 1 else 0)
  else (Value - Range.1) / Divisor

/-- Modelled from the spec: `FMath::Lerp(A, B, Alpha)` of the engine. -/
def Lerp (A B Alpha : ℚ) : ℚ := A + Alpha * (B - A)

/-- Modelled from the spec: `FMath::GetMappedRangeValueClamped(InputRange,
OutputRange, Value)` of the engine, the linear remap of `Value` from the input
range onto the output range with the fraction clamped to 0..1. -/
def GetMappedRangeValueClamped (InputRange OutputRange : ℚ × ℚ) (Value : ℚ) : ℚ :=
  let ClampedPct := Clamp (GetRangePct InputRange Value) 0 1
  Lerp OutputRange.1 OutputRange.2 ClampedPct

/-- Modelled from the spec: `FMath::FInterpTo(Current, Target, DeltaTime,
InterpSpeed)` of the engine, the smoothing primitive of every channel: it moves
`Current` toward `Target` by the fraction `clamp(DeltaTime * InterpSpeed, 0, 1)`
of the distance, and returns `Target` when the squared distance is below the
small-number threshold or the speed is not positive. -/
def FInterpTo (Current Target DeltaTime InterpSpeed : ℚ) : ℚ :=
  if InterpSpeed ≤ 0 then Target
  else
    let Dist := Target - Current
    if Dist * Dist < UE_SMALL_NUMBER then Target
    else
      let DeltaMove := Dist * Clamp (DeltaTime * InterpSpeed) 0 1
      Current + DeltaMove

/-! ## Vectors -/

/-- A three-component vector (`FVector`). -/
structure FVector where
  X : ℚ
  Y : ℚ
  Z : ℚ
  deriving DecidableEq

namespace FVector

/-- Component-wise difference (`operator-`). -/
def Sub (A B : FVector) : FVector := ⟨A.X - B.X, A.Y - B.Y, A.Z - B.Z⟩

/-- Multiplication by a scalar (`operator*`). -/
def Scale (A : FVector) (S : ℚ) : FVector := ⟨A.X * S, A.Y * S, A.Z * S⟩

/-- The dot product (`FVector::DotProduct`, `operator|`). -/
def DotProduct (A B : FVector) : ℚ := A.X * B.X + A.Y * B.Y + A.Z * B.Z

/-- The length of the vector (`FVector::Size`). -/
def Size (M : FMath) (A : FVector) : ℚ := M.Sqrt (A.X * A.X + A.Y * A.Y + A.Z * A.Z)

/-- The Euclidean distance between two points (`FVector::Distance`). -/
def Distance (M : FMath) (A B : FVector) : ℚ :=
  M.Sqrt ((B.X - A.X) * (B.X - A.X) + (B.Y - A.Y) * (B.Y - A.Y) + (B.Z - A.Z) * (B.Z - A.Z))

/-- In-place normalisation (`FVector::Normalize`): a vector whose squared length
does not exceed the tolerance is left as it is. -/
def Normalize (M : FMath) (A : FVector) : FVector :=
  let SquareSum := A.X * A.X + A.Y * A.Y + A.Z * A.Z
  if SquareSum > UE_SMALL_NUMBER then A.Scale (M.InvSqrt SquareSum) else A

/-- The projection of the vector onto `A` (`FVector::ProjectOnTo`). -/
def ProjectOnTo (M : FMath) (V A : FVector) : FVector :=
  A.Scale (M.Div (DotProduct V A) (DotProduct A A))

end FVector

/-! ## Data model

The class declaration (VRTP.h) is not part of the sources; the members below are
the ones VRTP.cpp reads and writes, with the types their uses there require. -/

/-- The background modes that `ApplyBackgroundMode` switches over. -/
inductive EVRTPBackgroundMode where
  | MM_COLOR
  | MM_SKYBOX
  | MM_BLUR
  deriving DecidableEq

/-- The mask modes that `ApplyMaskMode` switches over. -/
inductive EVRTPMaskMode where
  | MM_OFF
  | MM_MASK
  | MM_PORTAL
  | MM_WINDOW
  deriving DecidableEq

/-- A colour (`FLinearColor`). -/
structure FLinearColor where
  R : ℚ
  G : ℚ
  B : ℚ
  A : ℚ
  deriving DecidableEq

/-- The settings block of a preset asset (`Preset->Data`): the 29 values that
`SetPresetData` copies into the component.  Object references are handles, and
`none` is the null reference. -/
structure FVRTPPreset where
  SkyboxBlueprint : Option Nat
  CubeMapOverride : Option Nat
  PostProcessMaterial : Option Nat
  EffectColor : FLinearColor
  EffectCoverage : ℚ
  EffectFeather : ℚ
  BackgroundMode : EVRTPBackgroundMode
  ApplyEffectColor : Bool
  ForceEffect : Bool
  MaskMode : EVRTPMaskMode
  StencilIndex : Int
  bDirectionSpecific : Bool
  DirectionalVerticalStrength : ℚ
  DirectionalHorizontalStrength : ℚ
  bUseAngularVelocity : Bool
  AngularStrength : ℚ
  AngularMin : ℚ
  AngularMax : ℚ
  AngularSmoothing : ℚ
  bUseVelocity : Bool
  VelocityStrength : ℚ
  VelocityMin : ℚ
  VelocityMax : ℚ
  VelocitySmoothing : ℚ
  bUseAcceleration : Bool
  AccelerationStrength : ℚ
  AccelerationMin : ℚ
  AccelerationMax : ℚ
  AccelerationSmoothing : ℚ
  deriving DecidableEq

/-- A preset asset (`UVRTPPresetData`). -/
structure UVRTPPresetData where
  Data : FVRTPPreset
  deriving DecidableEq

/-- The value of one material parameter write. -/
inductive FParameterValue where
  | Scalar (Value : ℚ)
  | Vector (Value : FVector)
  | Texture (Value : Nat)
  deriving DecidableEq

/-- The dynamic material instance that receives the vignette parameters
(`PostProcessMID`), as the log of its parameter writes, oldest first. -/
structure UMaterialInstanceDynamic where
  Calls : List (String × FParameterValue)
  deriving DecidableEq

/-- Appends one write of a scalar parameter (`SetScalarParameterValue`). -/
def UMaterialInstanceDynamic.SetScalarParameterValue (MID : UMaterialInstanceDynamic)
    (Name : String) (Value : ℚ) : UMaterialInstanceDynamic :=
  { Calls := MID.Calls ++ [(Name, FParameterValue.Scalar Value)] }

/-- Appends one write of a vector parameter (`SetVectorParameterValue`). -/
def UMaterialInstanceDynamic.SetVectorParameterValue (MID : UMaterialInstanceDynamic)
    (Name : String) (Value : FVector) : UMaterialInstanceDynamic :=
  { Calls := MID.Calls ++ [(Name, FParameterValue.Vector Value)] }

/-- Appends one write of a texture parameter (`SetTextureParameterValue`). -/
def UMaterialInstanceDynamic.SetTextureParameterValue (MID : UMaterialInstanceDynamic)
    (Name : String) (Value : Nat) : UMaterialInstanceDynamic :=
  { Calls := MID.Calls ++ [(Name, FParameterValue.Texture Value)] }

/-- The spawned skybox actor, as far as the component touches it. -/
structure ASkybox where
  bHidden : Bool
  deriving DecidableEq

/-- A primitive component of an actor that carries a `UVRTPMask` component, as far
as `ApplyStencilMasks` touches it. -/
structure UPrimitiveComponent where
  CustomDepthStencilValue : Int
  bRenderCustomDepth : Bool
  deriving DecidableEq

/-- The camera component of the owning actor. -/
structure UCameraComponent where
  RightVector : FVector
  ForwardVector : FVector
  deriving DecidableEq

/-- What `GetOwner()` answers during one call of `CalculateMotion`: the pose of
the owning actor, its velocity, and its camera component if it has one. -/
structure AActor where
  ActorLocation : FVector
  ActorForwardVector : FVector
  Velocity : FVector
  PlayerCamera : Option UCameraComponent
  deriving DecidableEq

/-- The state of the component: the 29 active settings, their 29 swap
counterparts, the preset reference and its toggle, the output material, and the
motion state that persists from tick to tick. -/
structure UVRTunnellingPro where
  SkyboxBlueprint : Option Nat
  CubeMapOverride : Option Nat
  PostProcessMaterial : Option Nat
  EffectColor : FLinearColor
  EffectCoverage : ℚ
  EffectFeather : ℚ
  BackgroundMode : EVRTPBackgroundMode
  ApplyEffectColor : Bool
  ForceEffect : Bool
  MaskMode : EVRTPMaskMode
  StencilIndex : Int
  bDirectionSpecific : Bool
  DirectionalVerticalStrength : ℚ
  DirectionalHorizontalStrength : ℚ
  bUseAngularVelocity : Bool
  AngularStrength : ℚ
  AngularMin : ℚ
  AngularMax : ℚ
  AngularSmoothing : ℚ
  bUseVelocity : Bool
  VelocityStrength : ℚ
  VelocityMin : ℚ
  VelocityMax : ℚ
  VelocitySmoothing : ℚ
  bUseAcceleration : Bool
  AccelerationStrength : ℚ
  AccelerationMin : ℚ
  AccelerationMax : ℚ
  AccelerationSmoothing : ℚ
  SkyboxBlueprintSwap : Option Nat
  CubeMapOverrideSwap : Option Nat
  PostProcessMaterialSwap : Option Nat
  EffectColorSwap : FLinearColor
  EffectCoverageSwap : ℚ
  EffectFeatherSwap : ℚ
  BackgroundModeSwap : EVRTPBackgroundMode
  ApplyEffectColorSwap : Bool
  ForceEffectSwap : Bool
  MaskModeSwap : EVRTPMaskMode
  StencilIndexSwap : Int
  bDirectionSpecificSwap : Bool
  DirectionalVerticalStrengthSwap : ℚ
  DirectionalHorizontalStrengthSwap : ℚ
  bUseAngularVelocitySwap : Bool
  AngularStrengthSwap : ℚ
  AngularMinSwap : ℚ
  AngularMaxSwap : ℚ
  AngularSmoothingSwap : ℚ
  bUseVelocitySwap : Bool
  VelocityStrengthSwap : ℚ
  VelocityMinSwap : ℚ
  VelocityMaxSwap : ℚ
  VelocitySmoothingSwap : ℚ
  bUseAccelerationSwap : Bool
  AccelerationStrengthSwap : ℚ
  AccelerationMinSwap : ℚ
  AccelerationMaxSwap : ℚ
  AccelerationSmoothingSwap : ℚ
  Preset : Option UVRTPPresetData
  bEnablePreset : Bool
  CaptureInit : Bool
  PostProcessMID : Option UMaterialInstanceDynamic
  Skybox : Option ASkybox
  MaskedPrimitives : List UPrimitiveComponent
  LastPosition : FVector
  LastForward : FVector
  LastSpeed : ℚ
  AngleSmoothed : ℚ
  VelocitySmoothed : ℚ
  AccelerationSmoothed : ℚ

/-- The 29 active settings of a component, gathered in one record. -/
def ActiveSettings (Self : UVRTunnellingPro) : FVRTPPreset :=
  { SkyboxBlueprint := Self.SkyboxBlueprint,
    CubeMapOverride := Self.CubeMapOverride,
    PostProcessMaterial := Self.PostProcessMaterial,
    EffectColor := Self.EffectColor,
    EffectCoverage := Self.EffectCoverage,
    EffectFeather := Self.EffectFeather,
    BackgroundMode := Self.BackgroundMode,
    ApplyEffectColor := Self.ApplyEffectColor,
    ForceEffect := Self.ForceEffect,
    MaskMode := Self.MaskMode,
    StencilIndex := Self.StencilIndex,
    bDirectionSpecific := Self.bDirectionSpecific,
    DirectionalVerticalStrength := Self.DirectionalVerticalStrength,
    DirectionalHorizontalStrength := Self.DirectionalHorizontalStrength,
    bUseAngularVelocity := Self.bUseAngularVelocity,
    AngularStrength := Self.AngularStrength,
    AngularMin := Self.AngularMin,
    AngularMax := Self.AngularMax,
    AngularSmoothing := Self.AngularSmoothing,
    bUseVelocity := Self.bUseVelocity,
    VelocityStrength := Self.VelocityStrength,
    VelocityMin := Self.VelocityMin,
    VelocityMax := Self.VelocityMax,
    VelocitySmoothing := Self.VelocitySmoothing,
    bUseAcceleration := Self.bUseAcceleration,
    AccelerationStrength := Self.AccelerationStrength,
    AccelerationMin := Self.AccelerationMin,
    AccelerationMax := Self.AccelerationMax,
    AccelerationSmoothing := Self.AccelerationSmoothing }

/-- The 29 swap settings of a component, gathered in one record. -/
def SwapSettings (Self : UVRTunnellingPro) : FVRTPPreset :=
  { SkyboxBlueprint := Self.SkyboxBlueprintSwap,
    CubeMapOverride := Self.CubeMapOverrideSwap,
    PostProcessMaterial := Self.PostProcessMaterialSwap,
    EffectColor := Self.EffectColorSwap,
    EffectCoverage := Self.EffectCoverageSwap,
    EffectFeather := Self.EffectFeatherSwap,
    BackgroundMode := Self.BackgroundModeSwap,
    ApplyEffectColor := Self.ApplyEffectColorSwap,
    ForceEffect := Self.ForceEffectSwap,
    MaskMode := Self.MaskModeSwap,
    StencilIndex := Self.StencilIndexSwap,
    bDirectionSpecific := Self.bDirectionSpecificSwap,
    DirectionalVerticalStrength := Self.DirectionalVerticalStrengthSwap,
    DirectionalHorizontalStrength := Self.DirectionalHorizontalStrengthSwap,
    bUseAngularVelocity := Self.bUseAngularVelocitySwap,
    AngularStrength := Self.AngularStrengthSwap,
    AngularMin := Self.AngularMinSwap,
    AngularMax := Self.AngularMaxSwap,
    AngularSmoothing := Self.AngularSmoothingSwap,
    bUseVelocity := Self.bUseVelocitySwap,
    VelocityStrength := Self.VelocityStrengthSwap,
    VelocityMin := Self.VelocityMinSwap,
    VelocityMax := Self.VelocityMaxSwap,
    VelocitySmoothing := Self.VelocitySmoothingSwap,
    bUseAcceleration := Self.bUseAccelerationSwap,
    AccelerationStrength := Self.AccelerationStrengthSwap,
    AccelerationMin := Self.AccelerationMinSwap,
    AccelerationMax := Self.AccelerationMaxSwap,
    AccelerationSmoothing := Self.AccelerationSmoothingSwap }

/-! ## Preset swap -/

/-- Transcribes `UVRTunnellingPro::CacheSettings` (VRTP.cpp 105-136): every active
setting is copied into its swap counterpart. -/
def CacheSettings (Self : UVRTunnellingPro) : UVRTunnellingPro :=
  { Self with
    SkyboxBlueprintSwap := Self.SkyboxBlueprint,
    CubeMapOverrideSwap := Self.CubeMapOverride,
    PostProcessMaterialSwap := Self.PostProcessMaterial,
    EffectColorSwap := Self.EffectColor,
    EffectCoverageSwap := Self.EffectCoverage,
    EffectFeatherSwap := Self.EffectFeather,
    BackgroundModeSwap := Self.BackgroundMode,
    ApplyEffectColorSwap := Self.ApplyEffectColor,
    ForceEffectSwap := Self.ForceEffect,
    MaskModeSwap := Self.MaskMode,
    StencilIndexSwap := Self.StencilIndex,
    bDirectionSpecificSwap := Self.bDirectionSpecific,
    DirectionalVerticalStrengthSwap := Self.DirectionalVerticalStrength,
    DirectionalHorizontalStrengthSwap := Self.DirectionalHorizontalStrength,
    bUseAngularVelocitySwap := Self.bUseAngularVelocity,
    AngularStrengthSwap := Self.AngularStrength,
    AngularMinSwap := Self.AngularMin,
    AngularMaxSwap := Self.AngularMax,
    AngularSmoothingSwap := Self.AngularSmoothing,
    bUseVelocitySwap := Self.bUseVelocity,
    VelocityStrengthSwap := Self.VelocityStrength,
    VelocityMinSwap := Self.VelocityMin,
    VelocityMaxSwap := Self.VelocityMax,
    VelocitySmoothingSwap := Self.VelocitySmoothing,
    bUseAccelerationSwap := Self.bUseAcceleration,
    AccelerationStrengthSwap := Self.AccelerationStrength,
    AccelerationMinSwap := Self.AccelerationMin,
    AccelerationMaxSwap := Self.AccelerationMax,
    AccelerationSmoothingSwap := Self.AccelerationSmoothing }

/-- Transcribes `UVRTunnellingPro::SetPresetData` (VRTP.cpp 180-215): a non-null
preset becomes the current preset and its 29 values become the active settings;
a null preset changes nothing. -/
def SetPresetData (Self : UVRTunnellingPro) (NewPreset : Option UVRTPPresetData) :
    UVRTunnellingPro :=
  match NewPreset with
  | none => Self
  | some P =>
    { Self with
      Preset := some P,
      SkyboxBlueprint := P.Data.SkyboxBlueprint,
      CubeMapOverride := P.Data.CubeMapOverride,
      PostProcessMaterial := P.Data.PostProcessMaterial,
      EffectColor := P.Data.EffectColor,
      EffectCoverage := P.Data.EffectCoverage,
      EffectFeather := P.Data.EffectFeather,
      BackgroundMode := P.Data.BackgroundMode,
      ApplyEffectColor := P.Data.ApplyEffectColor,
      ForceEffect := P.Data.ForceEffect,
      MaskMode := P.Data.MaskMode,
      StencilIndex := P.Data.StencilIndex,
      bDirectionSpecific := P.Data.bDirectionSpecific,
      DirectionalVerticalStrength := P.Data.DirectionalVerticalStrength,
      DirectionalHorizontalStrength := P.Data.DirectionalHorizontalStrength,
      bUseAngularVelocity := P.Data.bUseAngularVelocity,
      AngularStrength := P.Data.AngularStrength,
      AngularMin := P.Data.AngularMin,
      AngularMax := P.Data.AngularMax,
      AngularSmoothing := P.Data.AngularSmoothing,
      bUseVelocity := P.Data.bUseVelocity,
      VelocityStrength := P.Data.VelocityStrength,
      VelocityMin := P.Data.VelocityMin,
      VelocityMax := P.Data.VelocityMax,
      VelocitySmoothing := P.Data.VelocitySmoothing,
      bUseAcceleration := P.Data.bUseAcceleration,
      AccelerationStrength := P.Data.AccelerationStrength,
      AccelerationMin := P.Data.AccelerationMin,
      AccelerationMax := P.Data.AccelerationMax,
      AccelerationSmoothing := P.Data.AccelerationSmoothing }

/-- Transcribes `UVRTunnellingPro::InitFromPreset` (VRTP.cpp 138-178): with a
preset present and enabled, the active settings are cached and the preset is
loaded; then, with the toggle off, every active setting is overwritten by its
swap counterpart. -/
def InitFromPreset (Self : UVRTunnellingPro) : UVRTunnellingPro :=
  let S1 :=
    if Self.Preset.isSome && Self.bEnablePreset then
      SetPresetData (CacheSettings Self) (CacheSettings Self).Preset
    else Self
  if !S1.bEnablePreset then
    { S1 with
      SkyboxBlueprint := S1.SkyboxBlueprintSwap,
      CubeMapOverride := S1.CubeMapOverrideSwap,
      PostProcessMaterial := S1.PostProcessMaterialSwap,
      EffectColor := S1.EffectColorSwap,
      EffectCoverage := S1.EffectCoverageSwap,
      EffectFeather := S1.EffectFeatherSwap,
      BackgroundMode := S1.BackgroundModeSwap,
      ApplyEffectColor := S1.ApplyEffectColorSwap,
      ForceEffect := S1.ForceEffectSwap,
      MaskMode := S1.MaskModeSwap,
      StencilIndex := S1.StencilIndexSwap,
      bUseAngularVelocity := S1.bUseAngularVelocitySwap,
      bDirectionSpecific := S1.bDirectionSpecificSwap,
      DirectionalVerticalStrength := S1.DirectionalVerticalStrengthSwap,
      DirectionalHorizontalStrength := S1.DirectionalHorizontalStrengthSwap,
      AngularStrength := S1.AngularStrengthSwap,
      AngularMin := S1.AngularMinSwap,
      AngularMax := S1.AngularMaxSwap,
      AngularSmoothing := S1.AngularSmoothingSwap,
      bUseVelocity := S1.bUseVelocitySwap,
      VelocityStrength := S1.VelocityStrengthSwap,
      VelocityMin := S1.VelocityMinSwap,
      VelocityMax := S1.VelocityMaxSwap,
      VelocitySmoothing := S1.VelocitySmoothingSwap,
      bUseAcceleration := S1.bUseAccelerationSwap,
      AccelerationStrength := S1.AccelerationStrengthSwap,
      AccelerationMin := S1.AccelerationMinSwap,
      AccelerationMax := S1.AccelerationMaxSwap,
      AccelerationSmoothing := S1.AccelerationSmoothingSwap }
  else S1

/-! ## Post-process settings

The functions of this section dereference `PostProcessMID` without a test; a
null dereference is the result `none`. -/

/-- Transcribes `UVRTunnellingPro::ApplyStencilMasks` (VRTP.cpp 705-729): every
primitive of an actor carrying a mask component receives the stencil index and
renders custom depth exactly when the mask mode is not off. -/
def ApplyStencilMasks (Self : UVRTunnellingPro) : UVRTunnellingPro :=
  { Self with
    MaskedPrimitives := Self.MaskedPrimitives.map fun _ =>
      { CustomDepthStencilValue := Self.StencilIndex,
        bRenderCustomDepth := decide (Self.MaskMode ≠ EVRTPMaskMode.MM_OFF) } }

/-- Hides or shows the skybox actor, if there is one (`SetActorHiddenInGame`). -/
def SetSkyboxHidden (Skybox : Option ASkybox) (bNewHidden : Bool) : Option ASkybox :=
  Skybox.map fun _ => { bHidden := bNewHidden }

/-- Transcribes `UVRTunnellingPro::ApplyBackgroundMode` (VRTP.cpp 613-649). -/
def ApplyBackgroundMode (Self : UVRTunnellingPro) : Option UVRTunnellingPro :=
  match Self.PostProcessMID with
  | none => none
  | some MID =>
    match Self.BackgroundMode with
    | EVRTPBackgroundMode.MM_COLOR =>
      some { Self with
        PostProcessMID := some (((MID.SetScalarParameterValue "BackgroundColor" 1
          ).SetScalarParameterValue "BackgroundSkybox" 0
          ).SetScalarParameterValue "BackgroundBlur" 0),
        Skybox := SetSkyboxHidden Self.Skybox true }
    | EVRTPBackgroundMode.MM_SKYBOX =>
      let MID1 := ((MID.SetScalarParameterValue "BackgroundColor" 0
          ).SetScalarParameterValue "BackgroundSkybox" 1
          ).SetScalarParameterValue "BackgroundBlur" 0
      let MID2 :=
        match Self.CubeMapOverride with
        | some Cube =>
          (MID1.SetScalarParameterValue "CubeMapOverride" 1
            ).SetTextureParameterValue "CustomCubeMap" Cube
        | none => MID1.SetScalarParameterValue "CubeMapOverride" 0
      some { Self with
        PostProcessMID := some MID2,
        Skybox := SetSkyboxHidden Self.Skybox false }
    | EVRTPBackgroundMode.MM_BLUR =>
      some { Self with
        PostProcessMID := some (((MID.SetScalarParameterValue "BackgroundColor" 0
          ).SetScalarParameterValue "BackgroundSkybox" 0
          ).SetScalarParameterValue "BackgroundBlur" 1),
        Skybox := SetSkyboxHidden Self.Skybox true }

/-- Transcribes `UVRTunnellingPro::ApplyMaskMode` (VRTP.cpp 651-679). -/
def ApplyMaskMode (Self : UVRTunnellingPro) : Option UVRTunnellingPro :=
  match Self.PostProcessMID with
  | none => none
  | some MID =>
    let Write := fun (On Portal Window : ℚ) =>
      ((MID.SetScalarParameterValue "MaskOn" On
        ).SetScalarParameterValue "MaskPortal" Portal
        ).SetScalarParameterValue "MaskWindow" Window
    match Self.MaskMode with
    | EVRTPMaskMode.MM_OFF => some { Self with PostProcessMID := some (Write 0 0 0) }
    | EVRTPMaskMode.MM_MASK => some { Self with PostProcessMID := some (Write 1 0 0) }
    | EVRTPMaskMode.MM_PORTAL => some { Self with PostProcessMID := some (Write 0 1 0) }
    | EVRTPMaskMode.MM_WINDOW => some { Self with PostProcessMID := some (Write 0 0 1) }

/-- Transcribes `UVRTunnellingPro::SetEffectColor` (VRTP.cpp 681-685). -/
def SetEffectColor (Self : UVRTunnellingPro) (NewColor : FLinearColor) :
    Option UVRTunnellingPro :=
  match Self.PostProcessMID with
  | none => none
  | some MID =>
    some { Self with
      EffectColor := NewColor,
      PostProcessMID := some (MID.SetVectorParameterValue "EffectColor"
        ⟨NewColor.R, NewColor.G, NewColor.B⟩) }

/-- Transcribes `UVRTunnellingPro::ApplyColor` (VRTP.cpp 731-736). -/
def ApplyColor (Self : UVRTunnellingPro) (Enabled : Bool) : Option UVRTunnellingPro :=
  match SetEffectColor { Self with ApplyEffectColor := Enabled } Self.EffectColor with
  | none => none
  | some S1 =>
    match S1.PostProcessMID with
    | none => none
    | some MID =>
      some { S1 with
        PostProcessMID := some (MID.SetScalarParameterValue "ApplyEffectColor"
          (if S1.ApplyEffectColor then 1 else 0)) }

/-- Transcribes `UVRTunnellingPro::SetFeather` (VRTP.cpp 687-691). -/
def SetFeather (Self : UVRTunnellingPro) (NewFeather : ℚ) : Option UVRTunnellingPro :=
  match Self.PostProcessMID with
  | none => none
  | some MID =>
    some { Self with
      EffectFeather := NewFeather,
      PostProcessMID := some (MID.SetScalarParameterValue "Feather" NewFeather) }

/-- Transcribes `UVRTunnellingPro::SetStencilMask` (VRTP.cpp 693-698). -/
def SetStencilMask (Self : UVRTunnellingPro) (NewStencilIndex : Int)
    (UpdateMaskedObjects : Bool) : Option UVRTunnellingPro :=
  match Self.PostProcessMID with
  | none => none
  | some MID =>
    let S1 := { Self with
      StencilIndex := NewStencilIndex,
      PostProcessMID := some (MID.SetScalarParameterValue "MaskStencil" (NewStencilIndex : ℚ)) }
    some (if UpdateMaskedObjects then ApplyStencilMasks S1 else S1)

/-- Transcribes `UVRTunnellingPro::UpdatePostProcessSettings` (VRTP.cpp 218-228):
nothing happens without a material; with one, the five settings are pushed to
it in order. -/
def UpdatePostProcessSettings (Self : UVRTunnellingPro) : Option UVRTunnellingPro :=
  if Self.PostProcessMID.isSome then
    (ApplyBackgroundMode Self).bind fun S1 =>
    (ApplyMaskMode S1).bind fun S2 =>
    (ApplyColor S2 S2.ApplyEffectColor).bind fun S3 =>
    (SetFeather S3 S3.EffectFeather).bind fun S4 =>
    SetStencilMask S4 S4.StencilIndex true
  else some Self

/-- Transcribes `UVRTunnellingPro::ApplyPreset` (VRTP.cpp 230-239): a non-null
preset is loaded with `SetPresetData`, without `CacheSettings`, and the material
is refreshed once the capture has been initialised. -/
def ApplyPreset (Self : UVRTunnellingPro) (NewPreset : Option UVRTPPresetData) :
    Option UVRTunnellingPro :=
  match NewPreset with
  | none => some Self
  | some P =>
    let S1 := SetPresetData Self (some P)
    if S1.CaptureInit then UpdatePostProcessSettings S1 else some S1

/-! ## The per-frame computation -/

/-- The local variables of `CalculateMotion`: the three that outlive a single
block (VRTP.cpp 740-742), and the first value assigned to each of the raw deltas
declared inside the blocks (VRTP.cpp 750, 762, 780), `none` as long as the
block has not run. -/
structure FMotionLocals where
  Radius : ℚ
  RadiusTarget : ℚ
  VelocityFinal : ℚ
  AngleDelta : Option ℚ := none
  VelocityDelta : Option ℚ := none
  AccelerationDelta : Option ℚ := none
  deriving DecidableEq

/-- The raw angular rate, the first value of the local `AngleDelta`
(VRTP.cpp 750): the angle in degrees between the current and the last forward
vector, divided by `DeltaTime`. -/
def AngleDelta (M : FMath) (Owner : AActor) (Self : UVRTunnellingPro) (DeltaTime : ℚ) : ℚ :=
  M.Div (M.AcosDegrees (FVector.DotProduct Owner.ActorForwardVector Self.LastForward)) DeltaTime

/-- The raw velocity, the local `VelocityDelta` (VRTP.cpp 762): the distance
between the current and the last position, divided by `DeltaTime`. -/
def VelocityDelta (M : FMath) (Owner : AActor) (Self : UVRTunnellingPro) (DeltaTime : ℚ) : ℚ :=
  M.Div (FVector.Distance M Owner.ActorLocation Self.LastPosition) DeltaTime

/-- The raw acceleration, the first value of the local `AccelerationDelta`
(VRTP.cpp 780): the absolute change of speed, divided by `DeltaTime`. -/
def AccelerationDelta (M : FMath) (Owner : AActor) (Self : UVRTunnellingPro)
    (DeltaTime : ℚ) : ℚ :=
  M.Div (Abs (Owner.Velocity.Size M - Self.LastSpeed)) DeltaTime

/-- The angular channel (VRTP.cpp 748-758). -/
def AngularStep (M : FMath) (Owner : AActor) (DeltaTime : ℚ) (Self : UVRTunnellingPro)
    (L : FMotionLocals) : UVRTunnellingPro × FMotionLocals :=
  if Self.bUseAngularVelocity then
    let AngleDelta0 := AngleDelta M Owner Self DeltaTime
    let AngleDelta1 :=
      if IsNearlyEqual Self.AngularMin Self.AngularMax (1 / 1000) then 0
      else (AngleDelta0 - Self.AngularMin) / (Self.AngularMax - Self.AngularMin)
    let InterpSpeed := GetMappedRangeValueClamped (0, 1) (1, 20) Self.AngularSmoothing
    let AngleSmoothed := FInterpTo Self.AngleSmoothed AngleDelta1 DeltaTime InterpSpeed
    ({ Self with AngleSmoothed := AngleSmoothed, LastForward := Owner.ActorForwardVector },
     { L with RadiusTarget := L.RadiusTarget + AngleSmoothed * (Self.AngularStrength * (1 / 2)),
              AngleDelta := some AngleDelta0 })
  else (Self, L)

/-- The velocity channel (VRTP.cpp 765-776), given the raw velocity of the
enclosing block. -/
def VelocityStep (VelocityDelta DeltaTime : ℚ) (Self : UVRTunnellingPro)
    (L : FMotionLocals) : UVRTunnellingPro × FMotionLocals :=
  if Self.bUseVelocity then
    let InterpSpeed := GetMappedRangeValueClamped (0, 1) (1, 20) Self.VelocitySmoothing
    let VelocitySmoothed := FInterpTo Self.VelocitySmoothed VelocityDelta DeltaTime InterpSpeed
    let VelocityFinal :=
      if !IsNearlyEqual Self.VelocityMin Self.VelocityMax (1 / 1000) then
        Clamp ((VelocitySmoothed - Self.VelocityMin) / (Self.VelocityMax - Self.VelocityMin)) 0 1
      else L.VelocityFinal
    ({ Self with VelocitySmoothed := VelocitySmoothed },
     { L with VelocityFinal := VelocityFinal,
              RadiusTarget := L.RadiusTarget + VelocityFinal * Self.VelocityStrength })
  else (Self, L)

/-- The acceleration channel (VRTP.cpp 778-792). -/
def AccelerationStep (M : FMath) (Owner : AActor) (DeltaTime : ℚ) (Self : UVRTunnellingPro)
    (L : FMotionLocals) : UVRTunnellingPro × FMotionLocals :=
  if Self.bUseAcceleration then
    let AccelerationDelta0 := AccelerationDelta M Owner Self DeltaTime
    let AccelerationDelta1 :=
      if !IsNearlyEqual Self.AccelerationMin Self.AccelerationMax (1 / 1000) then
        Clamp ((AccelerationDelta0 - Self.AccelerationMin)
          / (Self.AccelerationMax - Self.AccelerationMin)) 0 1
      else AccelerationDelta0
    let InterpSpeed := GetMappedRangeValueClamped (0, 1) (1, 20) Self.AccelerationSmoothing
    let AccelerationSmoothed :=
      FInterpTo Self.AccelerationSmoothed AccelerationDelta1 DeltaTime InterpSpeed
    ({ Self with LastSpeed := Owner.Velocity.Size M,
                 AccelerationSmoothed := AccelerationSmoothed },
     { L with RadiusTarget := L.RadiusTarget + AccelerationSmoothed * Self.AccelerationStrength,
              AccelerationDelta := some AccelerationDelta0 })
  else (Self, L)

/-- The block shared by the velocity and the acceleration channel
(VRTP.cpp 760-793): it samples the position once and runs the two channels. -/
def LinearStep (M : FMath) (Owner : AActor) (DeltaTime : ℚ) (Self : UVRTunnellingPro)
    (L : FMotionLocals) : UVRTunnellingPro × FMotionLocals :=
  if Self.bUseVelocity || Self.bUseAcceleration then
    let VelocityDelta0 := VelocityDelta M Owner Self DeltaTime
    let S1 := { Self with LastPosition := Owner.ActorLocation }
    let L1 := { L with VelocityDelta := some VelocityDelta0 }
    let C2 := VelocityStep VelocityDelta0 DeltaTime S1 L1
    AccelerationStep M Owner DeltaTime C2.1 C2.2
  else (Self, L)

/-- Measured mode, the branch taken when `ForceEffect` is false
(VRTP.cpp 748-802): the three channels, then the radius. -/
def MeasuredMode (M : FMath) (Owner : AActor) (DeltaTime : ℚ) (Self : UVRTunnellingPro)
    (L : FMotionLocals) : UVRTunnellingPro × FMotionLocals :=
  let C1 := AngularStep M Owner DeltaTime Self L
  let C2 := LinearStep M Owner DeltaTime C1.1 C1.2
  if C2.1.bUseAngularVelocity || C2.1.bUseAcceleration || C2.1.bUseVelocity then
    (C2.1, { C2.2 with
      Radius := GetMappedRangeValueClamped (0, 1) (3 / 2, 1 - C2.1.EffectCoverage)
        C2.2.RadiusTarget })
  else (C2.1, { C2.2 with Radius := 3 / 2 })

/-- The scalar writes that follow the write of the radius (VRTP.cpp 810-827), in
order: the directional shift when `bDirectionSpecific` is set, zeros otherwise. -/
def DirectionalShift (M : FMath) (Owner : AActor) (velocityVector : FVector)
    (Self : UVRTunnellingPro) (Radius : ℚ) : List (String × ℚ) :=
  if Self.bDirectionSpecific then
    [("XShift", 0), ("YShift", 0)] ++
      match Owner.PlayerCamera with
      | none => []
      | some PlayerCamera =>
        let cameraRight := PlayerCamera.RightVector
        let velocityVector1 := velocityVector.Normalize M
        let rightVelocity := velocityVector1.ProjectOnTo M cameraRight
        let strafeFactor := FVector.DotProduct rightVelocity cameraRight
        let cameraForward := PlayerCamera.ForwardVector.Normalize M
        [("YShift", cameraForward.Z * ((3 / 2 - Radius) / (3 / 2))
            * Self.DirectionalVerticalStrength),
         ("XShift", strafeFactor * Self.DirectionalHorizontalStrength)]
  else [("XShift", 0), ("YShift", 0)]

/-- The outcome of one call of `CalculateMotion`: the component afterwards, the
final values of the locals, and the scalar parameters written to the material
during the call, in order. -/
structure FMotionTick where
  Self : UVRTunnellingPro
  Locals : FMotionLocals
  Published : List (String × ℚ)

/-- Writes a sequence of scalar parameters to the material, in order. -/
def WriteScalars (MID : UMaterialInstanceDynamic) (Writes : List (String × ℚ)) :
    UMaterialInstanceDynamic :=
  Writes.foldl (fun Acc W => Acc.SetScalarParameterValue W.1 W.2) MID

/-- Transcribes `UVRTunnellingPro::CalculateMotion` (VRTP.cpp 738-829). -/
def CalculateMotion (M : FMath) (Owner : AActor) (DeltaTime : ℚ) (Self : UVRTunnellingPro) :
    FMotionTick :=
  let L0 : FMotionLocals := { Radius := 0, RadiusTarget := 0, VelocityFinal := 0 }
  let velocityVector := Owner.ActorLocation.Sub Self.LastPosition
  match Self.PostProcessMID with
  | none => { Self := Self, Locals := L0, Published := [] }
  | some MID =>
    let C :=
      if !Self.ForceEffect then MeasuredMode M Owner DeltaTime Self L0
      else (Self, { L0 with Radius := 3 / 10 })
    let Writes := ("Radius", C.2.Radius) :: DirectionalShift M Owner velocityVector C.1 C.2.Radius
    { Self := { C.1 with PostProcessMID := some (WriteScalars MID Writes) },
      Locals := C.2,
      Published := Writes }

/-- The values written for one parameter name, in the order of the writes. -/
def PublishedValues (Name : String) (Published : List (String × ℚ)) : List ℚ :=
  (Published.filter fun W => W.1 == Name).map fun W => W.2

/-! ## The component tick -/

/-- A rotation (`FRotator`). -/
structure FRotator where
  Pitch : ℚ
  Yaw : ℚ
  Roll : ℚ
  deriving DecidableEq

/-- The tracking status a motion controller reports (`ETrackingStatus`). -/
inductive ETrackingStatus where
  | NotTracked
  | InertialOnly
  | Tracked
  deriving DecidableEq

/-- One registered motion controller, as `PollControllerState` queries it: its
tracking status for the player and motion source, and the orientation and
position it returns, `none` when `GetControllerOrientationAndPosition` answers
false. -/
structure IMotionController where
  ControllerTrackingStatus : ETrackingStatus
  ControllerOrientationAndPosition : Option (FRotator × FVector)
  deriving DecidableEq

/-- What the engine answers during one call of `TickComponent` on the game
thread. -/
structure FTickWorld where
  /-- The owning actor, as `CalculateMotion` reads it. -/
  Owner : AActor
  /-- Stands for `GetOwner()->GetActorUpVector()`. -/
  ActorUpVector : FVector
  /-- Stands for `GetOwner()->GetActorRightVector()`. -/
  ActorRightVector : FVector
  /-- The value `PollControllerState` computes for `bHasAuthority`: the pawn is
  locally controlled, or the owner has the authority role. -/
  bOwnerHasAuthority : Bool
  /-- The registered motion controllers, a null entry being `none`. -/
  MotionControllers : List (Option IMotionController)
  /-- The tracking system (`GEngine->XRSystem`), `none` when there is none, and the
  pose of the head-mounted display it returns, `none` when `GetCurrentPose`
  answers false. -/
  XRSystem : Option (Option (FRotator × FVector))
  /-- The actor `SpawnActor` returns for the skybox blueprint. -/
  SpawnedSkybox : Option ASkybox
  /-- The handle of the cube render target created by `InitCapture`. -/
  RenderTargetCube : Nat

/-- The component together with the members outside the settings and the motion
state that `TickComponent` and `PollControllerState` read and write. -/
structure FTickState where
  Component : UVRTunnellingPro
  /-- Stands for `IsActive()`. -/
  bIsActive : Bool
  bTracked : Bool
  bHasAuthority : Bool
  CurrentTrackingStatus : ETrackingStatus
  /-- Stands for `MotionSource == FXRMotionControllerBase::HMDSourceId`. -/
  bMotionSourceIsHMD : Bool
  RelativeLocation : FVector
  RelativeRotation : FRotator
  /-- Stands for `ViewExtension.IsValid()`. -/
  bViewExtensionValid : Bool

/-- The loop over the motion controllers in `PollControllerState`
(VRTP.cpp 399-417): null entries are skipped, every other entry overwrites the
tracking status, and the first one that returns a pose ends the search. -/
def PollMotionControllers (Status : ETrackingStatus) :
    List (Option IMotionController) → ETrackingStatus × Option (FRotator × FVector)
  | [] => (Status, none)
  | none :: Rest => PollMotionControllers Status Rest
  | some MotionController :: Rest =>
    match MotionController.ControllerOrientationAndPosition with
    | some Pose => (MotionController.ControllerTrackingStatus, some Pose)
    | none => PollMotionControllers MotionController.ControllerTrackingStatus Rest

/-- Transcribes `UVRTunnellingPro::PollControllerState` (VRTP.cpp 386-434) on the
game thread: the state afterwards, and the orientation and position when the
function returns true, `none` when it returns false. -/
def PollControllerState (World : FTickWorld) (State : FTickState) :
    FTickState × Option (FRotator × FVector) :=
  let S1 := { State with bHasAuthority := World.bOwnerHasAuthority }
  if S1.bHasAuthority then
    let Polled := PollMotionControllers S1.CurrentTrackingStatus World.MotionControllers
    let S2 := { S1 with CurrentTrackingStatus := Polled.1 }
    match Polled.2 with
    | some Pose => (S2, some Pose)
    | none =>
      if S2.bMotionSourceIsHMD then
        match World.XRSystem with
        | some (some Pose) => (S2, some Pose)
        | _ => (S2, none)
      else (S2, none)
  else (S1, none)

/-- Transcribes `UVRTunnellingPro::InitCapture` (VRTP.cpp 533-573), as far as it
touches the component: with a camera on the owner and a tracking system, the
material instance is created, the post-process settings are pushed to it, and
the cube render target is bound to it. -/
def InitCapture (World : FTickWorld) (Self : UVRTunnellingPro) : Option UVRTunnellingPro :=
  match World.Owner.PlayerCamera with
  | none => some Self
  | some _ =>
    if World.XRSystem.isSome then
      (UpdatePostProcessSettings { Self with PostProcessMID := some { Calls := [] } }).bind
        fun S1 =>
          match S1.PostProcessMID with
          | none => none
          | some MID =>
            some { S1 with
              PostProcessMID :=
                some (MID.SetTextureParameterValue "TC" World.RenderTargetCube) }
    else some Self

/-- Transcribes `UVRTunnellingPro::InitSkybox` (VRTP.cpp 575-599), as far as it
touches the component: with a skybox blueprint, the spawned actor becomes the
skybox. -/
def InitSkybox (World : FTickWorld) (Self : UVRTunnellingPro) : UVRTunnellingPro :=
  if Self.SkyboxBlueprint.isSome then { Self with Skybox := World.SpawnedSkybox } else Self

/-- The block of `TickComponent` under `IsActive()` (VRTP.cpp 261-288): an active
component polls the pose, takes it over when the poll succeeds, records the
tracked flag, and, when it has an output material, runs `CalculateMotion` and
writes the three direction vectors of the owner. -/
def TickActive (M : FMath) (World : FTickWorld) (DeltaTime : ℚ) (S1 : FTickState) :
    FTickState :=
  if S1.bIsActive then
    let Polled := PollControllerState World S1
    let S2 :=
      match Polled.2 with
      | some Pose => { Polled.1 with RelativeLocation := Pose.2, RelativeRotation := Pose.1 }
      | none => Polled.1
    let S3 := { S2 with bTracked := Polled.2.isSome }
    let S4 := { S3 with bViewExtensionValid := true }
    match S4.Component.PostProcessMID with
    | some _ =>
      let C2 := (CalculateMotion M World.Owner DeltaTime S4.Component).Self
      { S4 with
        Component := { C2 with
          PostProcessMID := C2.PostProcessMID.map fun MID =>
            ((MID.SetVectorParameterValue "Up" World.ActorUpVector
              ).SetVectorParameterValue "Right" World.ActorRightVector
              ).SetVectorParameterValue "Forward" World.Owner.ActorForwardVector } }
    | none => S4
  else S1

/-- The first block of `TickComponent` (VRTP.cpp 254-259): while `CaptureInit` is
not set, it is set and the capture and the skybox are initialised. -/
def InitOnFirstTick (World : FTickWorld) (Self : UVRTunnellingPro) : Option UVRTunnellingPro :=
  if !Self.CaptureInit then
    (InitCapture World { Self with CaptureInit := true }).map (InitSkybox World)
  else some Self

/-- Transcribes `UVRTunnellingPro::TickComponent` (VRTP.cpp 250-289): the capture
and the skybox are initialised on the first tick, then the block under
`IsActive()` runs. -/
def TickComponent (M : FMath) (World : FTickWorld) (DeltaTime : ℚ) (State : FTickState) :
    Option FTickState :=
  (InitOnFirstTick World State.Component).map fun C1 =>
    TickActive M World DeltaTime { State with Component := C1 }

/-- The motion state that persists from tick to tick. -/
structure FMotionState where
  LastPosition : FVector
  LastForward : FVector
  LastSpeed : ℚ
  AngleSmoothed : ℚ
  VelocitySmoothed : ℚ
  AccelerationSmoothed : ℚ
  deriving DecidableEq

/-- The motion state of a component, gathered in one record. -/
def MotionState (Self : UVRTunnellingPro) : FMotionState :=
  { LastPosition := Self.LastPosition,
    LastForward := Self.LastForward,
    LastSpeed := Self.LastSpeed,
    AngleSmoothed := Self.AngleSmoothed,
    VelocitySmoothed := Self.VelocitySmoothed,
    AccelerationSmoothed := Self.AccelerationSmoothed }

/-! ## Concrete inputs for the examples -/

/-- Numeric primitives for evaluating examples.  The square root is the integer
square root of numerator times denominator over the denominator, exact on the
squares of rationals; the arc cosine is exact at -1, 0 and 1 and follows the
chord elsewhere; a quotient by zero is 0. -/
def SampleMath : FMath :=
  { Sqrt := fun X => (Nat.sqrt (X.num.toNat * X.den) : ℚ) / X.den,
    InvSqrt := fun X => X.den / (Nat.sqrt (X.num.toNat * X.den) : ℚ),
    AcosDegrees := fun X => 90 - 90 * X,
    DivByZero := fun _ => 0 }

/-- A component built from an active and a swap settings record, with an empty
material, no preset, and the motion state at rest at the origin. -/
def MakeComponent (Active Swap : FVRTPPreset) : UVRTunnellingPro :=
  { SkyboxBlueprint := Active.SkyboxBlueprint,
    CubeMapOverride := Active.CubeMapOverride,
    PostProcessMaterial := Active.PostProcessMaterial,
    EffectColor := Active.EffectColor,
    EffectCoverage := Active.EffectCoverage,
    EffectFeather := Active.EffectFeather,
    BackgroundMode := Active.BackgroundMode,
    ApplyEffectColor := Active.ApplyEffectColor,
    ForceEffect := Active.ForceEffect,
    MaskMode := Active.MaskMode,
    StencilIndex := Active.StencilIndex,
    bDirectionSpecific := Active.bDirectionSpecific,
    DirectionalVerticalStrength := Active.DirectionalVerticalStrength,
    DirectionalHorizontalStrength := Active.DirectionalHorizontalStrength,
    bUseAngularVelocity := Active.bUseAngularVelocity,
    AngularStrength := Active.AngularStrength,
    AngularMin := Active.AngularMin,
    AngularMax := Active.AngularMax,
    AngularSmoothing := Active.AngularSmoothing,
    bUseVelocity := Active.bUseVelocity,
    VelocityStrength := Active.VelocityStrength,
    VelocityMin := Active.VelocityMin,
    VelocityMax := Active.VelocityMax,
    VelocitySmoothing := Active.VelocitySmoothing,
    bUseAcceleration := Active.bUseAcceleration,
    AccelerationStrength := Active.AccelerationStrength,
    AccelerationMin := Active.AccelerationMin,
    AccelerationMax := Active.AccelerationMax,
    AccelerationSmoothing := Active.AccelerationSmoothing,
    SkyboxBlueprintSwap := Swap.SkyboxBlueprint,
    CubeMapOverrideSwap := Swap.CubeMapOverride,
    PostProcessMaterialSwap := Swap.PostProcessMaterial,
    EffectColorSwap := Swap.EffectColor,
    EffectCoverageSwap := Swap.EffectCoverage,
    EffectFeatherSwap := Swap.EffectFeather,
    BackgroundModeSwap := Swap.BackgroundMode,
    ApplyEffectColorSwap := Swap.ApplyEffectColor,
    ForceEffectSwap := Swap.ForceEffect,
    MaskModeSwap := Swap.MaskMode,
    StencilIndexSwap := Swap.StencilIndex,
    bDirectionSpecificSwap := Swap.bDirectionSpecific,
    DirectionalVerticalStrengthSwap := Swap.DirectionalVerticalStrength,
    DirectionalHorizontalStrengthSwap := Swap.DirectionalHorizontalStrength,
    bUseAngularVelocitySwap := Swap.bUseAngularVelocity,
    AngularStrengthSwap := Swap.AngularStrength,
    AngularMinSwap := Swap.AngularMin,
    AngularMaxSwap := Swap.AngularMax,
    AngularSmoothingSwap := Swap.AngularSmoothing,
    bUseVelocitySwap := Swap.bUseVelocity,
    VelocityStrengthSwap := Swap.VelocityStrength,
    VelocityMinSwap := Swap.VelocityMin,
    VelocityMaxSwap := Swap.VelocityMax,
    VelocitySmoothingSwap := Swap.VelocitySmoothing,
    bUseAccelerationSwap := Swap.bUseAcceleration,
    AccelerationStrengthSwap := Swap.AccelerationStrength,
    AccelerationMinSwap := Swap.AccelerationMin,
    AccelerationMaxSwap := Swap.AccelerationMax,
    AccelerationSmoothingSwap := Swap.AccelerationSmoothing,
    Preset := none,
    bEnablePreset := false,
    CaptureInit := true,
    PostProcessMID := some { Calls := [] },
    Skybox := none,
    MaskedPrimitives := [],
    LastPosition := ⟨0, 0, 0⟩,
    LastForward := ⟨1, 0, 0⟩,
    LastSpeed := 0,
    AngleSmoothed := 0,
    VelocitySmoothed := 0,
    AccelerationSmoothed := 0 }

/-- A settings record with every channel off: coverage 0.75, ranges 0..180
(angular) and 0..2 (velocity, acceleration), strengths 1, smoothing 0.5. -/
def SampleSettings : FVRTPPreset :=
  { SkyboxBlueprint := none,
    CubeMapOverride := none,
    PostProcessMaterial := some 1,
    EffectColor := ⟨0, 0, 0, 1⟩,
    EffectCoverage := 3 / 4,
    EffectFeather := 1 / 5,
    BackgroundMode := EVRTPBackgroundMode.MM_COLOR,
    ApplyEffectColor := false,
    ForceEffect := false,
    MaskMode := EVRTPMaskMode.MM_OFF,
    StencilIndex := 200,
    bDirectionSpecific := false,
    DirectionalVerticalStrength := 1,
    DirectionalHorizontalStrength := 1,
    bUseAngularVelocity := false,
    AngularStrength := 1,
    AngularMin := 0,
    AngularMax := 180,
    AngularSmoothing := 1 / 2,
    bUseVelocity := false,
    VelocityStrength := 1,
    VelocityMin := 0,
    VelocityMax := 2,
    VelocitySmoothing := 1 / 2,
    bUseAcceleration := false,
    AccelerationStrength := 1,
    AccelerationMin := 0,
    AccelerationMax := 2,
    AccelerationSmoothing := 1 / 2 }

/-- A preset that forces the effect at full coverage. -/
def SamplePreset : UVRTPPresetData :=
  { Data := { SampleSettings with EffectCoverage := 1, ForceEffect := true } }

/-- The sample component: active and swap settings both `SampleSettings`. -/
def SampleComponent : UVRTunnellingPro := MakeComponent SampleSettings SampleSettings

/-- An owner that stands at (1, 0, 0), one unit away from the last position of
the sample component, looks along the last forward vector, moves at speed 1,
and has a camera looking the same way. -/
def SampleOwner : AActor :=
  { ActorLocation := ⟨1, 0, 0⟩,
    ActorForwardVector := ⟨1, 0, 0⟩,
    Velocity := ⟨1, 0, 0⟩,
    PlayerCamera := some { RightVector := ⟨0, 1, 0⟩, ForwardVector := ⟨1, 0, 0⟩ } }

/-- The sample component with only the angular channel on, a zero-width angular
range (90..90), the smoothing knob at 0 and a previous smoothed angle of 1. -/
def DegenerateAngularComponent : UVRTunnellingPro :=
  { SampleComponent with
    bUseAngularVelocity := true,
    AngularMin := 90,
    AngularMax := 90,
    AngularSmoothing := 0,
    AngleSmoothed := 1 }

/-- The sample component with only the velocity channel on, a zero-width
velocity range (2..2) and a previous smoothed velocity of 1. -/
def DegenerateVelocityComponent : UVRTunnellingPro :=
  { SampleComponent with
    bUseVelocity := true,
    VelocityMin := 2,
    VelocityMax := 2,
    VelocitySmoothed := 1 }

/-- The sample component with only the acceleration channel on, a zero-width
acceleration range (2..2) and the smoothing knob at 1. -/
def DegenerateAccelerationComponent : UVRTunnellingPro :=
  { SampleComponent with
    bUseAcceleration := true,
    AccelerationMin := 2,
    AccelerationMax := 2,
    AccelerationSmoothing := 1 }

/-- The initial values of the locals of `CalculateMotion`. -/
def InitialLocals : FMotionLocals := { Radius := 0, RadiusTarget := 0, VelocityFinal := 0 }

/-- The sample component in measured mode with all three channels on. -/
def AllChannelsComponent : UVRTunnellingPro :=
  { SampleComponent with
    bUseAngularVelocity := true,
    bUseVelocity := true,
    bUseAcceleration := true }

/-- The sample owner turned by a right angle: its forward vector is
perpendicular to the last forward vector of the sample component. -/
def TurnedOwner : AActor :=
  { SampleOwner with ActorForwardVector := ⟨0, 1, 0⟩ }

/-- The scenario of the velocity channel: the sample component with only the
velocity channel on (range 0..2, strength 1, smoothing knob 0.5, previous
smoothed velocity 0); with the sample owner the displacement is one unit. -/
def VelocityOnlyComponent : UVRTunnellingPro :=
  { SampleComponent with bUseVelocity := true }

/-- The sample component with only the angular channel on, range 0..90 and the
smoothing knob at 1. -/
def AngularOnlyComponent : UVRTunnellingPro :=
  { SampleComponent with
    bUseAngularVelocity := true,
    AngularMin := 0,
    AngularMax := 90,
    AngularSmoothing := 1 }

/-- The sample component with only the acceleration channel on (range 0..2,
strength 1, smoothing knob 0.5, previous smoothed acceleration 0). -/
def AccelerationOnlyComponent : UVRTunnellingPro :=
  { SampleComponent with bUseAcceleration := true }

/-- A world in which tracking is lost: the owner has authority, the only motion
controller reports no pose, and the tracking system returns no pose for the
head-mounted display. -/
def TrackingLostWorld : FTickWorld :=
  { Owner := SampleOwner,
    ActorUpVector := ⟨0, 0, 1⟩,
    ActorRightVector := ⟨0, 1, 0⟩,
    bOwnerHasAuthority := true,
    MotionControllers :=
      [some { ControllerTrackingStatus := ETrackingStatus.NotTracked,
              ControllerOrientationAndPosition := none }],
    XRSystem := some none,
    SpawnedSkybox := none,
    RenderTargetCube := 7 }

/-- An active, initialised component in the velocity scenario, tracked on the
previous tick, with the head-mounted display as its motion source. -/
def SampleTickState : FTickState :=
  { Component := VelocityOnlyComponent,
    bIsActive := true,
    bTracked := true,
    bHasAuthority := true,
    CurrentTrackingStatus := ETrackingStatus.Tracked,
    bMotionSourceIsHMD := true,
    RelativeLocation := ⟨0, 0, 0⟩,
    RelativeRotation := ⟨0, 0, 0⟩,
    bViewExtensionValid := true }

/-- The sample tick state before its first tick: the capture is not initialised
and there is no output material yet. -/
def FirstTickState : FTickState :=
  { SampleTickState with
    Component := { VelocityOnlyComponent with CaptureInit := false, PostProcessMID := none } }

/-- The sample component holding the sample preset, with the preset enabled but
not yet loaded. -/
def PresetEnabledComponent : UVRTunnellingPro :=
  { SampleComponent with Preset := some SamplePreset, bEnablePreset := true }

/-! ## Shared lemmas -/

theorem FMath_Div_of_ne (M : FMath) (A B : ℚ) (h : B ≠ 0) : M.Div A B = A / B := by
  simp [FMath.Div, h]

theorem SampleMath_Sqrt_one : SampleMath.Sqrt 1 = 1 := by
  simp [SampleMath]

theorem InterpSpeed_eq (Smoothing : ℚ) :
    GetMappedRangeValueClamped (0, 1) (1, 20) Smoothing = 1 + Clamp Smoothing 0 1 * 19 := by
  have h : IsNearlyZero (1 - 0) = false := by
    simp [IsNearlyZero, Abs, UE_SMALL_NUMBER]; norm_num
  simp only [GetMappedRangeValueClamped, GetRangePct, Lerp, h]
  norm_num

theorem AngularStep_settings (M : FMath) (Owner : AActor) (DeltaTime : ℚ)
    (Self : UVRTunnellingPro) (L : FMotionLocals) :
    ActiveSettings (AngularStep M Owner DeltaTime Self L).1 = ActiveSettings Self := by
  unfold AngularStep
  split <;> rfl

theorem VelocityStep_settings (VelocityDelta DeltaTime : ℚ)
    (Self : UVRTunnellingPro) (L : FMotionLocals) :
    ActiveSettings (VelocityStep VelocityDelta DeltaTime Self L).1 = ActiveSettings Self := by
  unfold VelocityStep
  split <;> rfl

theorem AccelerationStep_settings (M : FMath) (Owner : AActor) (DeltaTime : ℚ)
    (Self : UVRTunnellingPro) (L : FMotionLocals) :
    ActiveSettings (AccelerationStep M Owner DeltaTime Self L).1 = ActiveSettings Self := by
  unfold AccelerationStep
  split <;> rfl

theorem LinearStep_settings (M : FMath) (Owner : AActor) (DeltaTime : ℚ)
    (Self : UVRTunnellingPro) (L : FMotionLocals) :
    ActiveSettings (LinearStep M Owner DeltaTime Self L).1 = ActiveSettings Self := by
  unfold LinearStep
  split
  · simp only [AccelerationStep_settings, VelocityStep_settings]
    rfl
  · rfl

theorem MeasuredMode_settings (M : FMath) (Owner : AActor) (DeltaTime : ℚ)
    (Self : UVRTunnellingPro) (L : FMotionLocals) :
    ActiveSettings (MeasuredMode M Owner DeltaTime Self L).1 = ActiveSettings Self := by
  unfold MeasuredMode
  simp only []
  split <;>
    simp only [LinearStep_settings, AngularStep_settings]

theorem PublishedValues_cons (Name : String) (W : String × ℚ) (Ws : List (String × ℚ)) :
    PublishedValues Name (W :: Ws)
      = if W.1 = Name then W.2 :: PublishedValues Name Ws else PublishedValues Name Ws := by
  unfold PublishedValues
  by_cases h : W.1 = Name <;> simp [List.filter_cons, h]

theorem PublishedValues_nil (Name : String) : PublishedValues Name [] = [] := rfl

theorem PublishedValues_Radius_DirectionalShift (M : FMath) (Owner : AActor)
    (velocityVector : FVector) (Self : UVRTunnellingPro) (Radius : ℚ) :
    PublishedValues "Radius" (DirectionalShift M Owner velocityVector Self Radius) = [] := by
  unfold DirectionalShift
  obtain ⟨Loc, Fwd, Vel, Cam⟩ := Owner
  split
  · cases Cam <;> simp [PublishedValues_cons, PublishedValues_nil]
  · simp [PublishedValues_cons, PublishedValues_nil]

/-! ## Forced mode, disabled channels, directional shift -/

/-- C1: with `ForceEffect` set and an output material present, `CalculateMotion`
writes the parameter `Radius` exactly once, with the value 0.3, whatever the
prior state, the pose of the owner and `DeltaTime`. -/
theorem CalculateMotion_ForceEffect_publishes_Radius (M : FMath) (Owner : AActor)
    (DeltaTime : ℚ) (Self : UVRTunnellingPro) (MID : UMaterialInstanceDynamic)
    (hForce : Self.ForceEffect = true) (hMID : Self.PostProcessMID = some MID) :
    PublishedValues "Radius" (CalculateMotion M Owner DeltaTime Self).Published = [3 / 10]
      ∧ (CalculateMotion M Owner DeltaTime Self).Locals.Radius = 3 / 10 := by
  unfold CalculateMotion
  simp only [hMID, hForce, Bool.not_true, Bool.false_eq_true, if_false]
  simp [PublishedValues_cons, PublishedValues_Radius_DirectionalShift]

/-- Witness of C1: the sample component with `ForceEffect` set, at 60 frames per
second. -/
theorem CalculateMotion_ForceEffect_publishes_Radius_witness :
    ({ SampleComponent with ForceEffect := true }).ForceEffect = true
      ∧ ({ SampleComponent with ForceEffect := true }).PostProcessMID = some { Calls := [] }
      ∧ PublishedValues "Radius" (CalculateMotion SampleMath SampleOwner (1 / 60)
          { SampleComponent with ForceEffect := true }).Published = [3 / 10]
      ∧ (CalculateMotion SampleMath SampleOwner (1 / 60)
          { SampleComponent with ForceEffect := true }).Locals.Radius = 3 / 10 :=
  ⟨rfl, rfl, CalculateMotion_ForceEffect_publishes_Radius SampleMath SampleOwner (1 / 60)
    { SampleComponent with ForceEffect := true } { Calls := [] } rfl rfl⟩

theorem MeasuredMode_disabled (M : FMath) (Owner : AActor) (DeltaTime : ℚ)
    (Self : UVRTunnellingPro) (L : FMotionLocals)
    (hAng : Self.bUseAngularVelocity = false) (hVel : Self.bUseVelocity = false)
    (hAcc : Self.bUseAcceleration = false) :
    MeasuredMode M Owner DeltaTime Self L = (Self, { L with Radius := 3 / 2 }) := by
  simp [MeasuredMode, AngularStep, LinearStep, hAng, hVel, hAcc]

/-- C2, refuted as stated: the sample component has `ForceEffect` false and the
three channels off, but without an output material `CalculateMotion` writes no
parameter at all, so no radius 1.5 is published. -/
theorem CalculateMotion_disabled_without_material_publishes_nothing :
    ({ SampleComponent with PostProcessMID := none }).ForceEffect = false
      ∧ ({ SampleComponent with PostProcessMID := none }).bUseAngularVelocity = false
      ∧ ({ SampleComponent with PostProcessMID := none }).bUseVelocity = false
      ∧ ({ SampleComponent with PostProcessMID := none }).bUseAcceleration = false
      ∧ (CalculateMotion SampleMath SampleOwner (1 / 60)
          { SampleComponent with PostProcessMID := none }).Published = []
      ∧ (3 / 2 : ℚ) ∉ PublishedValues "Radius" (CalculateMotion SampleMath SampleOwner (1 / 60)
          { SampleComponent with PostProcessMID := none }).Published :=
  ⟨rfl, rfl, rfl, rfl, rfl, by simp [CalculateMotion, PublishedValues_nil]⟩

/-- C2, amended: with `ForceEffect` false, the three channels off and an output
material present, `CalculateMotion` writes the parameter `Radius` exactly once,
with the value 1.5, whatever the prior state, the pose, the coverage and
`DeltaTime`. -/
theorem CalculateMotion_disabled_publishes_Radius (M : FMath) (Owner : AActor)
    (DeltaTime : ℚ) (Self : UVRTunnellingPro) (MID : UMaterialInstanceDynamic)
    (hForce : Self.ForceEffect = false) (hAng : Self.bUseAngularVelocity = false)
    (hVel : Self.bUseVelocity = false) (hAcc : Self.bUseAcceleration = false)
    (hMID : Self.PostProcessMID = some MID) :
    PublishedValues "Radius" (CalculateMotion M Owner DeltaTime Self).Published = [3 / 2]
      ∧ (CalculateMotion M Owner DeltaTime Self).Locals.Radius = 3 / 2 := by
  unfold CalculateMotion
  simp only [hMID, hForce, Bool.not_false, if_true,
    MeasuredMode_disabled M Owner DeltaTime Self _ hAng hVel hAcc]
  simp [PublishedValues_cons, PublishedValues_Radius_DirectionalShift]

/-- Witness of the amended C2: the sample component, whose channels are off. -/
theorem CalculateMotion_disabled_publishes_Radius_witness :
    SampleComponent.ForceEffect = false
      ∧ SampleComponent.PostProcessMID = some { Calls := [] }
      ∧ PublishedValues "Radius"
          (CalculateMotion SampleMath SampleOwner (1 / 60) SampleComponent).Published = [3 / 2]
      ∧ (CalculateMotion SampleMath SampleOwner (1 / 60) SampleComponent).Locals.Radius = 3 / 2 :=
  ⟨rfl, rfl, CalculateMotion_disabled_publishes_Radius SampleMath SampleOwner (1 / 60)
    SampleComponent { Calls := [] } rfl rfl rfl rfl rfl⟩

theorem CalculateMotion_Published_of_material (M : FMath) (Owner : AActor) (DeltaTime : ℚ)
    (Self : UVRTunnellingPro) (MID : UMaterialInstanceDynamic)
    (hMID : Self.PostProcessMID = some MID) :
    (CalculateMotion M Owner DeltaTime Self).Published
      = ("Radius", (CalculateMotion M Owner DeltaTime Self).Locals.Radius)
        :: DirectionalShift M Owner (Owner.ActorLocation.Sub Self.LastPosition)
            (CalculateMotion M Owner DeltaTime Self).Self
            (CalculateMotion M Owner DeltaTime Self).Locals.Radius := by
  unfold CalculateMotion
  simp only [hMID]
  rfl

theorem CalculateMotion_settings (M : FMath) (Owner : AActor) (DeltaTime : ℚ)
    (Self : UVRTunnellingPro) :
    ActiveSettings (CalculateMotion M Owner DeltaTime Self).Self = ActiveSettings Self := by
  unfold CalculateMotion
  cases hMID : Self.PostProcessMID with
  | none => rfl
  | some MID =>
    simp only []
    split
    · exact MeasuredMode_settings M Owner DeltaTime Self _
    · rfl

/-- C6: with `bDirectionSpecific` false and an output material present,
`CalculateMotion` writes `XShift` and `YShift` exactly once each in the tick, both
with the value 0, so the last value written for each is 0, whatever the camera,
the motion, the radius and the directional strengths. -/
theorem CalculateMotion_not_directional_shift_zero (M : FMath) (Owner : AActor)
    (DeltaTime : ℚ) (Self : UVRTunnellingPro) (MID : UMaterialInstanceDynamic)
    (hDir : Self.bDirectionSpecific = false) (hMID : Self.PostProcessMID = some MID) :
    (PublishedValues "XShift" (CalculateMotion M Owner DeltaTime Self).Published).getLast?
        = some 0
      ∧ (PublishedValues "YShift" (CalculateMotion M Owner DeltaTime Self).Published).getLast?
        = some 0
      ∧ PublishedValues "XShift" (CalculateMotion M Owner DeltaTime Self).Published = [0]
      ∧ PublishedValues "YShift" (CalculateMotion M Owner DeltaTime Self).Published = [0] := by
  have hDir1 : (CalculateMotion M Owner DeltaTime Self).Self.bDirectionSpecific = false := by
    have h := congrArg FVRTPPreset.bDirectionSpecific
      (CalculateMotion_settings M Owner DeltaTime Self)
    exact h.trans hDir
  rw [CalculateMotion_Published_of_material M Owner DeltaTime Self MID hMID]
  simp [DirectionalShift, hDir1, PublishedValues_cons, PublishedValues_nil]

/-- Witness of C6: the sample component (not direction specific) with the angular
and the velocity channel switched on, and an owner that has a camera. -/
theorem CalculateMotion_not_directional_shift_zero_witness :
    ({ SampleComponent with bUseAngularVelocity := true, bUseVelocity := true }
        ).bDirectionSpecific = false
      ∧ (PublishedValues "XShift" (CalculateMotion SampleMath SampleOwner (1 / 60)
          { SampleComponent with bUseAngularVelocity := true, bUseVelocity := true }
          ).Published).getLast? = some 0
      ∧ (PublishedValues "YShift" (CalculateMotion SampleMath SampleOwner (1 / 60)
          { SampleComponent with bUseAngularVelocity := true, bUseVelocity := true }
          ).Published).getLast? = some 0 :=
  have h := CalculateMotion_not_directional_shift_zero SampleMath SampleOwner (1 / 60)
    { SampleComponent with bUseAngularVelocity := true, bUseVelocity := true }
    { Calls := [] } rfl rfl
  ⟨rfl, h.1, h.2.1⟩

/-! ## Preset round trips -/

/-- C4: for a component with a non-null preset, `InitFromPreset` with the toggle
on loads the preset, and `InitFromPreset` with the toggle off, run next with
nothing edited in between, leaves each of the 29 active settings equal to its
value before the activation. -/
theorem InitFromPreset_activate_then_deactivate (Self : UVRTunnellingPro)
    (P : UVRTPPresetData) (hPreset : Self.Preset = some P) :
    ActiveSettings (InitFromPreset { Self with bEnablePreset := true }) = P.Data
      ∧ ActiveSettings
          (InitFromPreset
            { InitFromPreset { Self with bEnablePreset := true } with bEnablePreset := false })
        = ActiveSettings Self := by
  constructor <;>
    simp [InitFromPreset, CacheSettings, SetPresetData, ActiveSettings, hPreset]

/-- Witness of C4: the sample component holding the sample preset, whose
coverage (1) and `ForceEffect` (true) differ from the custom values. -/
theorem InitFromPreset_activate_then_deactivate_witness :
    ({ SampleComponent with Preset := some SamplePreset }).Preset = some SamplePreset
      ∧ ActiveSettings (InitFromPreset
          { ({ SampleComponent with Preset := some SamplePreset }) with bEnablePreset := true })
        = SamplePreset.Data
      ∧ ActiveSettings
          (InitFromPreset
            { InitFromPreset
                { ({ SampleComponent with Preset := some SamplePreset }) with
                  bEnablePreset := true } with bEnablePreset := false })
        = ActiveSettings { SampleComponent with Preset := some SamplePreset } :=
  ⟨rfl, InitFromPreset_activate_then_deactivate
    { SampleComponent with Preset := some SamplePreset } SamplePreset rfl⟩

theorem ApplyBackgroundMode_spec (Self : UVRTunnellingPro) (MID : UMaterialInstanceDynamic)
    (hMID : Self.PostProcessMID = some MID) :
    ∃ S1 MID1, ApplyBackgroundMode Self = some S1 ∧ S1.PostProcessMID = some MID1
      ∧ ActiveSettings S1 = ActiveSettings Self ∧ SwapSettings S1 = SwapSettings Self := by
  unfold ApplyBackgroundMode
  simp only [hMID]
  split <;> exact ⟨_, _, rfl, rfl, rfl, rfl⟩

theorem ApplyMaskMode_spec (Self : UVRTunnellingPro) (MID : UMaterialInstanceDynamic)
    (hMID : Self.PostProcessMID = some MID) :
    ∃ S1 MID1, ApplyMaskMode Self = some S1 ∧ S1.PostProcessMID = some MID1
      ∧ ActiveSettings S1 = ActiveSettings Self ∧ SwapSettings S1 = SwapSettings Self := by
  unfold ApplyMaskMode
  simp only [hMID]
  split <;> exact ⟨_, _, rfl, rfl, rfl, rfl⟩

theorem ApplyColor_spec (Self : UVRTunnellingPro) (MID : UMaterialInstanceDynamic)
    (hMID : Self.PostProcessMID = some MID) :
    ∃ S1 MID1, ApplyColor Self Self.ApplyEffectColor = some S1 ∧ S1.PostProcessMID = some MID1
      ∧ ActiveSettings S1 = ActiveSettings Self ∧ SwapSettings S1 = SwapSettings Self := by
  unfold ApplyColor SetEffectColor
  simp only [hMID]
  exact ⟨_, _, rfl, rfl, rfl, rfl⟩

theorem SetFeather_spec (Self : UVRTunnellingPro) (MID : UMaterialInstanceDynamic)
    (hMID : Self.PostProcessMID = some MID) :
    ∃ S1 MID1, SetFeather Self Self.EffectFeather = some S1 ∧ S1.PostProcessMID = some MID1
      ∧ ActiveSettings S1 = ActiveSettings Self ∧ SwapSettings S1 = SwapSettings Self := by
  unfold SetFeather
  simp only [hMID]
  exact ⟨_, _, rfl, rfl, rfl, rfl⟩

theorem SetStencilMask_spec (Self : UVRTunnellingPro) (MID : UMaterialInstanceDynamic)
    (hMID : Self.PostProcessMID = some MID) :
    ∃ S1, SetStencilMask Self Self.StencilIndex true = some S1
      ∧ ActiveSettings S1 = ActiveSettings Self ∧ SwapSettings S1 = SwapSettings Self := by
  unfold SetStencilMask
  simp only [hMID]
  exact ⟨_, rfl, rfl, rfl⟩

theorem UpdatePostProcessSettings_spec (Self : UVRTunnellingPro) :
    ∃ S1, UpdatePostProcessSettings Self = some S1
      ∧ ActiveSettings S1 = ActiveSettings Self ∧ SwapSettings S1 = SwapSettings Self := by
  unfold UpdatePostProcessSettings
  cases hMID : Self.PostProcessMID with
  | none => exact ⟨Self, by simp, rfl, rfl⟩
  | some MID =>
    obtain ⟨S1, MID1, e1, m1, a1, w1⟩ := ApplyBackgroundMode_spec Self MID hMID
    obtain ⟨S2, MID2, e2, m2, a2, w2⟩ := ApplyMaskMode_spec S1 MID1 m1
    obtain ⟨S3, MID3, e3, m3, a3, w3⟩ := ApplyColor_spec S2 MID2 m2
    obtain ⟨S4, MID4, e4, m4, a4, w4⟩ := SetFeather_spec S3 MID3 m3
    obtain ⟨S5, e5, a5, w5⟩ := SetStencilMask_spec S4 MID4 m4
    refine ⟨S5, ?_, ?_, ?_⟩
    · simp [e1, e2, e3, e4, e5]
    · rw [a5, a4, a3, a2, a1]
    · rw [w5, w4, w3, w2, w1]

/-- C5, refuted as stated: a component whose active coverage is 0.75 while its
swap coverage is 0.25; after `ApplyPreset` of the sample preset (coverage 1) and
`InitFromPreset` with the toggle off, the active coverage is 0.25, not the 0.75
it had before `ApplyPreset`. -/
theorem ApplyPreset_then_clear_loses_active_coverage :
    (MakeComponent SampleSettings { SampleSettings with EffectCoverage := 1 / 4 }
        ).EffectCoverage = 3 / 4
      ∧ (ApplyPreset (MakeComponent SampleSettings { SampleSettings with EffectCoverage := 1 / 4 })
          (some SamplePreset)).map
            (fun S1 => (S1.EffectCoverage,
              (InitFromPreset { S1 with bEnablePreset := false }).EffectCoverage))
        = some (1, 1 / 4) := by
  constructor
  · rfl
  · simp [ApplyPreset, SetPresetData, UpdatePostProcessSettings, ApplyBackgroundMode,
      ApplyMaskMode, ApplyColor, SetEffectColor, SetFeather, SetStencilMask, ApplyStencilMasks,
      InitFromPreset, MakeComponent, SamplePreset, SampleSettings]

/-- C5, amended: for every component and every non-null preset P, `ApplyPreset`
succeeds and makes the 29 values of P the active settings without touching the
swap settings; `InitFromPreset` with the toggle off, run next, sets every active
setting to the value its swap counterpart had before the `ApplyPreset` call. -/
theorem ApplyPreset_then_clear_restores_swap (Self : UVRTunnellingPro) (P : UVRTPPresetData) :
    ∃ S1, ApplyPreset Self (some P) = some S1
      ∧ ActiveSettings S1 = P.Data
      ∧ SwapSettings S1 = SwapSettings Self
      ∧ ActiveSettings (InitFromPreset { S1 with bEnablePreset := false })
        = SwapSettings Self := by
  have hSet : ActiveSettings (SetPresetData Self (some P)) = P.Data
      ∧ SwapSettings (SetPresetData Self (some P)) = SwapSettings Self := ⟨rfl, rfl⟩
  have hClear : ∀ S : UVRTunnellingPro,
      ActiveSettings (InitFromPreset { S with bEnablePreset := false }) = SwapSettings S := by
    intro S
    simp [InitFromPreset, ActiveSettings, SwapSettings]
  unfold ApplyPreset
  simp only []
  split
  · obtain ⟨S1, e1, a1, w1⟩ := UpdatePostProcessSettings_spec (SetPresetData Self (some P))
    exact ⟨S1, e1, a1.trans hSet.1, w1.trans hSet.2, (hClear S1).trans (w1.trans hSet.2)⟩
  · exact ⟨_, rfl, hSet.1, hSet.2, (hClear _).trans hSet.2⟩

/-! ## Degenerate ranges -/

/-- C3, refuted as stated, at `DeltaTime` 0.5 with a single channel on, so that
`RadiusTarget` is that channel's addend.  Angular channel, range 90..90, previous
smoothed angle 1: the addend is 0.25.  Acceleration channel, range 2..2, speed
going from 0 to 1: the addend is 2. -/
theorem degenerate_range_addend_not_zero :
    IsNearlyEqual DegenerateAngularComponent.AngularMin
        DegenerateAngularComponent.AngularMax (1 / 1000) = true
      ∧ (CalculateMotion SampleMath SampleOwner (1 / 2)
          DegenerateAngularComponent).Locals.RadiusTarget = 1 / 4
      ∧ IsNearlyEqual DegenerateAccelerationComponent.AccelerationMin
        DegenerateAccelerationComponent.AccelerationMax (1 / 1000) = true
      ∧ (CalculateMotion SampleMath SampleOwner (1 / 2)
          DegenerateAccelerationComponent).Locals.RadiusTarget = 2 := by
  refine ⟨?_, ?_, ?_, ?_⟩
  · norm_num [DegenerateAngularComponent, IsNearlyEqual, Abs]
  · norm_num [CalculateMotion, MeasuredMode, AngularStep, LinearStep, VelocityStep,
      AccelerationStep, DegenerateAngularComponent, SampleComponent, MakeComponent,
      SampleSettings, SampleOwner, SampleMath, IsNearlyEqual, Abs, InterpSpeed_eq, Clamp,
      FInterpTo, UE_SMALL_NUMBER, AngleDelta, FMath.Div, FVector.DotProduct]
  · norm_num [DegenerateAccelerationComponent, IsNearlyEqual, Abs]
  · norm_num [CalculateMotion, MeasuredMode, AngularStep, LinearStep, VelocityStep,
      AccelerationStep, DegenerateAccelerationComponent, SampleComponent, MakeComponent,
      SampleSettings, SampleOwner, IsNearlyEqual, Abs, InterpSpeed_eq, Clamp, FInterpTo,
      UE_SMALL_NUMBER, AccelerationDelta, FMath.Div, FVector.Size, SampleMath_Sqrt_one]

theorem FInterpTo_zero_zero (DeltaTime InterpSpeed : ℚ) : FInterpTo 0 0 DeltaTime InterpSpeed = 0 := by
  unfold FInterpTo
  split
  · rfl
  · norm_num [UE_SMALL_NUMBER]

/-- C3, amended (velocity and angular channel; nothing is stated about the
acceleration channel).  With the velocity channel on and its range degenerate,
the velocity block adds exactly 0 to `RadiusTarget`, for every previous smoothed
value, raw velocity, strength and `DeltaTime` (the local `VelocityFinal` holding
its initial 0, as it does when the block is reached).  With the angular channel
on and its range degenerate, the angular block smooths toward 0 and adds the
smoothed angle times half the strength, which is exactly 0 when the previous
smoothed angle is 0.  Over a whole measured-mode tick with the velocity channel
on and degenerate, `VelocityFinal` ends at 0, and so does the velocity addend
`VelocityFinal * VelocityStrength`. -/
theorem degenerate_range_addends (M : FMath) (Owner : AActor)
    (DeltaTime VelocityDelta0 : ℚ) (Self : UVRTunnellingPro) (L : FMotionLocals) :
    (Self.bUseVelocity = true
        → IsNearlyEqual Self.VelocityMin Self.VelocityMax (1 / 1000) = true
        → L.VelocityFinal = 0
        → (VelocityStep VelocityDelta0 DeltaTime Self L).2.RadiusTarget - L.RadiusTarget = 0)
      ∧ (Self.bUseVelocity = true
        → IsNearlyEqual Self.VelocityMin Self.VelocityMax (1 / 1000) = true
        → Self.PostProcessMID.isSome = true
        → Self.ForceEffect = false
        → (CalculateMotion M Owner DeltaTime Self).Locals.VelocityFinal = 0
          ∧ (CalculateMotion M Owner DeltaTime Self).Locals.VelocityFinal
              * Self.VelocityStrength = 0)
      ∧ (Self.bUseAngularVelocity = true
        → IsNearlyEqual Self.AngularMin Self.AngularMax (1 / 1000) = true
        → (AngularStep M Owner DeltaTime Self L).2.RadiusTarget - L.RadiusTarget
            = FInterpTo Self.AngleSmoothed 0 DeltaTime
                (GetMappedRangeValueClamped (0, 1) (1, 20) Self.AngularSmoothing)
              * (Self.AngularStrength * (1 / 2))
          ∧ (Self.AngleSmoothed = 0
            → (AngularStep M Owner DeltaTime Self L).2.RadiusTarget - L.RadiusTarget = 0)) := by
  refine ⟨?_, ?_, ?_⟩
  · intro hVel hDeg hL
    simp only [VelocityStep, hVel, hDeg, hL, if_true, Bool.not_true, Bool.false_eq_true,
      if_false]
    ring
  · intro hVel hDeg hMID hForce
    obtain ⟨MID, hMID⟩ := Option.isSome_iff_exists.mp hMID
    have hFinal : (CalculateMotion M Owner DeltaTime Self).Locals.VelocityFinal = 0 := by
      rcases Bool.eq_false_or_eq_true Self.bUseAngularVelocity with hAng | hAng <;>
      rcases Bool.eq_false_or_eq_true Self.bUseAcceleration with hAcc | hAcc <;>
      simp only [CalculateMotion, hMID, hForce, MeasuredMode, AngularStep, LinearStep,
        VelocityStep, AccelerationStep, hAng, hVel, hAcc, hDeg, Bool.not_false, if_true,
        Bool.or_false, Bool.false_eq_true, if_false, Bool.true_or, Bool.or_true, Bool.or_self,
        Bool.not_true]
    exact ⟨hFinal, by rw [hFinal]; ring⟩
  · intro hAng hDeg
    have h : (AngularStep M Owner DeltaTime Self L).2.RadiusTarget - L.RadiusTarget
        = FInterpTo Self.AngleSmoothed 0 DeltaTime
            (GetMappedRangeValueClamped (0, 1) (1, 20) Self.AngularSmoothing)
          * (Self.AngularStrength * (1 / 2)) := by
      simp only [AngularStep, hAng, hDeg, if_true]
      ring
    refine ⟨h, ?_⟩
    intro hZero
    rw [h, hZero, FInterpTo_zero_zero]
    simp

/-- Witness of the amended C3: the velocity block of the degenerate-velocity
sample at raw velocity 5, and the angular block of the degenerate-angular sample
started from a smoothed angle of 0, both at `DeltaTime` 0.5, and the whole tick
of the degenerate-velocity sample. -/
theorem degenerate_range_addends_witness :
    (VelocityStep 5 (1 / 2) DegenerateVelocityComponent InitialLocals).2.RadiusTarget
        - InitialLocals.RadiusTarget = 0
      ∧ (CalculateMotion SampleMath SampleOwner (1 / 2)
          DegenerateVelocityComponent).Locals.VelocityFinal = 0
      ∧ (AngularStep SampleMath SampleOwner (1 / 2)
          { DegenerateAngularComponent with AngleSmoothed := 0 } InitialLocals).2.RadiusTarget
        - InitialLocals.RadiusTarget = 0 :=
  ⟨(degenerate_range_addends SampleMath SampleOwner (1 / 2) 5 DegenerateVelocityComponent
      InitialLocals).1 rfl
      (by norm_num [DegenerateVelocityComponent, IsNearlyEqual, Abs]) rfl,
   ((degenerate_range_addends SampleMath SampleOwner (1 / 2) 5 DegenerateVelocityComponent
      InitialLocals).2.1 rfl
      (by norm_num [DegenerateVelocityComponent, IsNearlyEqual, Abs]) rfl rfl).1,
   ((degenerate_range_addends SampleMath SampleOwner (1 / 2) 5
      { DegenerateAngularComponent with AngleSmoothed := 0 } InitialLocals).2.2 rfl
      (by norm_num [DegenerateAngularComponent, IsNearlyEqual, Abs])).2 rfl⟩

/-! ## Raw deltas and `DeltaTime` -/

/-- C7, refuted as stated: at `DeltaTime` = -1, in measured mode with all channels
on, for an owner that turned by 90 degrees, moved by one unit and went from
speed 0 to speed 1, the raw deltas `CalculateMotion` computes are -90, -1 and
-1: each is the measured change divided by `DeltaTime`, none is 0. -/
theorem raw_deltas_not_zero_at_negative_DeltaTime :
    (-1 : ℚ) ≤ 0
      ∧ AllChannelsComponent.ForceEffect = false
      ∧ AllChannelsComponent.PostProcessMID.isSome = true
      ∧ (CalculateMotion SampleMath TurnedOwner (-1) AllChannelsComponent).Locals.AngleDelta
        = some (-90)
      ∧ (CalculateMotion SampleMath TurnedOwner (-1) AllChannelsComponent).Locals.VelocityDelta
        = some (-1)
      ∧ (CalculateMotion SampleMath TurnedOwner (-1) AllChannelsComponent).Locals.AccelerationDelta
        = some (-1) := by
  refine ⟨by norm_num, rfl, rfl, ?_, ?_, ?_⟩
  · norm_num [CalculateMotion, MeasuredMode, AngularStep, LinearStep, VelocityStep,
      AccelerationStep, AngleDelta, FMath.Div, FVector.DotProduct, TurnedOwner, SampleOwner,
      AllChannelsComponent, SampleComponent, MakeComponent, SampleSettings, SampleMath]
  · norm_num [CalculateMotion, MeasuredMode, AngularStep, LinearStep, VelocityStep,
      AccelerationStep, VelocityDelta, FMath.Div, FVector.Distance, TurnedOwner, SampleOwner,
      AllChannelsComponent, SampleComponent, MakeComponent, SampleSettings,
      SampleMath_Sqrt_one]
  · norm_num [CalculateMotion, MeasuredMode, AngularStep, LinearStep, VelocityStep,
      AccelerationStep, AccelerationDelta, FMath.Div, FVector.Size, Abs, TurnedOwner,
      SampleOwner, AllChannelsComponent, SampleComponent, MakeComponent, SampleSettings,
      SampleMath_Sqrt_one]

theorem Abs_eq_zero_iff (A : ℚ) : Abs A = 0 ↔ A = 0 := by
  unfold Abs
  split
  · constructor <;> intro h <;> linarith
  · rfl

theorem FMath_Div_of_nonpos (M : FMath) (A B : ℚ) (h : B ≤ 0) :
    M.Div A B = (if B < 0 then A / B else M.DivByZero A) := by
  unfold FMath.Div
  rcases lt_or_eq_of_le h with hlt | heq
  · rw [if_neg (ne_of_lt hlt), if_pos hlt]
  · rw [if_pos heq, if_neg (by rw [heq]; exact lt_irrefl 0)]

theorem CalculateMotion_Locals_deltas (M : FMath) (Owner : AActor) (DeltaTime : ℚ)
    (Self : UVRTunnellingPro) (MID : UMaterialInstanceDynamic)
    (hMID : Self.PostProcessMID = some MID) (hForce : Self.ForceEffect = false) :
    (CalculateMotion M Owner DeltaTime Self).Locals.AngleDelta
        = (if Self.bUseAngularVelocity then some (AngleDelta M Owner Self DeltaTime) else none)
      ∧ (CalculateMotion M Owner DeltaTime Self).Locals.VelocityDelta
        = (if Self.bUseVelocity || Self.bUseAcceleration then
            some (VelocityDelta M Owner Self DeltaTime)
          else none)
      ∧ (CalculateMotion M Owner DeltaTime Self).Locals.AccelerationDelta
        = (if Self.bUseAcceleration then some (AccelerationDelta M Owner Self DeltaTime)
          else none) := by
  refine ⟨?_, ?_, ?_⟩ <;>
  rcases Bool.eq_false_or_eq_true Self.bUseAngularVelocity with hAng | hAng <;>
  rcases Bool.eq_false_or_eq_true Self.bUseVelocity with hVel | hVel <;>
  rcases Bool.eq_false_or_eq_true Self.bUseAcceleration with hAcc | hAcc <;>
  simp [CalculateMotion, hMID, hForce, MeasuredMode, AngularStep, LinearStep, VelocityStep,
    AccelerationStep, AngleDelta, VelocityDelta, AccelerationDelta, hAng, hVel, hAcc]

/-- C7, amended: for every `DeltaTime` <= 0, in measured mode, `CalculateMotion`
computes the raw delta of every block that runs by dividing the measured change
(angle in degrees, distance, absolute change of speed) by `DeltaTime`, with no
guard on `DeltaTime`.  For `DeltaTime` < 0 the raw delta is the measured change
over `DeltaTime`, which is 0 exactly when the measured change is 0.  For
`DeltaTime` = 0 the division is carried out all the same and the raw delta is
whatever the machine yields for the quotient by zero. -/
theorem CalculateMotion_raw_deltas (M : FMath) (Owner : AActor) (DeltaTime : ℚ)
    (Self : UVRTunnellingPro) (MID : UMaterialInstanceDynamic)
    (hMID : Self.PostProcessMID = some MID) (hForce : Self.ForceEffect = false)
    (hDeltaTime : DeltaTime ≤ 0) :
    (CalculateMotion M Owner DeltaTime Self).Locals.AngleDelta
        = (if Self.bUseAngularVelocity then
            some (if DeltaTime < 0 then
                M.AcosDegrees (FVector.DotProduct Owner.ActorForwardVector Self.LastForward)
                  / DeltaTime
              else M.DivByZero
                (M.AcosDegrees (FVector.DotProduct Owner.ActorForwardVector Self.LastForward)))
          else none)
      ∧ (CalculateMotion M Owner DeltaTime Self).Locals.VelocityDelta
        = (if Self.bUseVelocity || Self.bUseAcceleration then
            some (if DeltaTime < 0 then
                FVector.Distance M Owner.ActorLocation Self.LastPosition / DeltaTime
              else M.DivByZero (FVector.Distance M Owner.ActorLocation Self.LastPosition))
          else none)
      ∧ (CalculateMotion M Owner DeltaTime Self).Locals.AccelerationDelta
        = (if Self.bUseAcceleration then
            some (if DeltaTime < 0 then
                Abs (Owner.Velocity.Size M - Self.LastSpeed) / DeltaTime
              else M.DivByZero (Abs (Owner.Velocity.Size M - Self.LastSpeed)))
          else none)
      ∧ (DeltaTime < 0 → Self.bUseAngularVelocity = true
        → ((CalculateMotion M Owner DeltaTime Self).Locals.AngleDelta = some 0
          ↔ M.AcosDegrees (FVector.DotProduct Owner.ActorForwardVector Self.LastForward) = 0))
      ∧ (DeltaTime < 0 → (Self.bUseVelocity || Self.bUseAcceleration) = true
        → ((CalculateMotion M Owner DeltaTime Self).Locals.VelocityDelta = some 0
          ↔ FVector.Distance M Owner.ActorLocation Self.LastPosition = 0))
      ∧ (DeltaTime < 0 → Self.bUseAcceleration = true
        → ((CalculateMotion M Owner DeltaTime Self).Locals.AccelerationDelta = some 0
          ↔ Owner.Velocity.Size M = Self.LastSpeed)) := by
  obtain ⟨hA, hV, hAc⟩ := CalculateMotion_Locals_deltas M Owner DeltaTime Self MID hMID hForce
  have hdiv : ∀ A : ℚ, DeltaTime < 0 → (A / DeltaTime = 0 ↔ A = 0) := by
    intro A hlt
    simp [div_eq_zero_iff, ne_of_lt hlt]
  unfold AngleDelta at hA
  unfold VelocityDelta at hV
  unfold AccelerationDelta at hAc
  rw [FMath_Div_of_nonpos M _ DeltaTime hDeltaTime] at hA hV hAc
  refine ⟨hA, hV, hAc, ?_, ?_, ?_⟩
  · intro hlt hOn
    rw [hA, if_pos hOn, if_pos hlt, Option.some_inj, hdiv _ hlt]
  · intro hlt hOn
    rw [hV, if_pos hOn, if_pos hlt, Option.some_inj, hdiv _ hlt]
  · intro hlt hOn
    rw [hAc, if_pos hOn, if_pos hlt, Option.some_inj, hdiv _ hlt, Abs_eq_zero_iff, sub_eq_zero]

/-- Witness of the amended C7: the turned owner and the all-channels sample at
`DeltaTime` = -1, where the raw velocity is the distance over -1. -/
theorem CalculateMotion_raw_deltas_witness :
    AllChannelsComponent.ForceEffect = false
      ∧ (-1 : ℚ) ≤ 0
      ∧ (CalculateMotion SampleMath TurnedOwner (-1) AllChannelsComponent).Locals.VelocityDelta
        = (if AllChannelsComponent.bUseVelocity || AllChannelsComponent.bUseAcceleration then
            some (if (-1 : ℚ) < 0 then
                FVector.Distance SampleMath TurnedOwner.ActorLocation
                  AllChannelsComponent.LastPosition / (-1)
              else SampleMath.DivByZero
                (FVector.Distance SampleMath TurnedOwner.ActorLocation
                  AllChannelsComponent.LastPosition))
          else none) :=
  ⟨rfl, by norm_num,
   (CalculateMotion_raw_deltas SampleMath TurnedOwner (-1) AllChannelsComponent { Calls := [] }
      rfl rfl (by norm_num)).2.1⟩

/-! ## The velocity channel -/

/-- C8, refuted as stated, at the scenario of the claim (`DeltaTime` 0.016, range
0..2, strength 1, knob 0.5, displacement 1, previous smoothed velocity 0): the
raw velocity is 62.5 and the interpolation speed 10.5; normalising first and
smoothing second, as the claim has it, would give 0.168, but `CalculateMotion`
smooths the raw velocity to 10.5, normalises that to 1, and ends with
`RadiusTarget` = 1. -/
theorem velocity_scenario_RadiusTarget_is_one :
    VelocityDelta SampleMath SampleOwner VelocityOnlyComponent (2 / 125) = 125 / 2
      ∧ GetMappedRangeValueClamped (0, 1) (1, 20) VelocityOnlyComponent.VelocitySmoothing
        = 21 / 2
      ∧ VelocityOnlyComponent.VelocityStrength
          * FInterpTo VelocityOnlyComponent.VelocitySmoothed
              (Clamp ((VelocityDelta SampleMath SampleOwner VelocityOnlyComponent (2 / 125)
                  - VelocityOnlyComponent.VelocityMin)
                / (VelocityOnlyComponent.VelocityMax - VelocityOnlyComponent.VelocityMin)) 0 1)
              (2 / 125)
              (GetMappedRangeValueClamped (0, 1) (1, 20) VelocityOnlyComponent.VelocitySmoothing)
        = 21 / 125
      ∧ (CalculateMotion SampleMath SampleOwner (2 / 125)
          VelocityOnlyComponent).Self.VelocitySmoothed = 21 / 2
      ∧ (CalculateMotion SampleMath SampleOwner (2 / 125)
          VelocityOnlyComponent).Locals.VelocityFinal = 1
      ∧ (CalculateMotion SampleMath SampleOwner (2 / 125)
          VelocityOnlyComponent).Locals.RadiusTarget = 1 := by
  have hRaw : VelocityDelta SampleMath SampleOwner VelocityOnlyComponent (2 / 125) = 125 / 2 := by
    norm_num [VelocityDelta, FMath.Div, FVector.Distance, SampleOwner, VelocityOnlyComponent,
      SampleComponent, MakeComponent, SampleMath_Sqrt_one]
  have hSpeed : GetMappedRangeValueClamped (0, 1) (1, 20)
      VelocityOnlyComponent.VelocitySmoothing = 21 / 2 := by
    norm_num [InterpSpeed_eq, Clamp, VelocityOnlyComponent, SampleComponent, MakeComponent,
      SampleSettings]
  refine ⟨hRaw, hSpeed, ?_, ?_, ?_, ?_⟩
  · rw [hRaw, hSpeed]
    norm_num [VelocityOnlyComponent, SampleComponent, MakeComponent, SampleSettings, Clamp,
      FInterpTo, UE_SMALL_NUMBER]
  all_goals
    norm_num [CalculateMotion, MeasuredMode, AngularStep, LinearStep, VelocityStep,
      AccelerationStep, VelocityOnlyComponent, SampleComponent, MakeComponent, SampleSettings,
      SampleOwner, IsNearlyEqual, Abs, InterpSpeed_eq, Clamp, FInterpTo, UE_SMALL_NUMBER,
      VelocityDelta, FMath.Div, FVector.Distance, SampleMath_Sqrt_one]

/-- C8, amended: the velocity channel smooths before it normalises.  In measured
mode with an output material, only the velocity channel on and a non-degenerate
range, the new smoothed velocity is the previous one moved toward the raw
velocity, and `RadiusTarget` is `VelocityStrength` times the clamped
normalisation of that smoothed velocity. -/
theorem velocity_only_RadiusTarget (M : FMath) (Owner : AActor) (DeltaTime : ℚ)
    (Self : UVRTunnellingPro) (MID : UMaterialInstanceDynamic)
    (hMID : Self.PostProcessMID = some MID) (hForce : Self.ForceEffect = false)
    (hAng : Self.bUseAngularVelocity = false) (hVel : Self.bUseVelocity = true)
    (hAcc : Self.bUseAcceleration = false)
    (hRange : IsNearlyEqual Self.VelocityMin Self.VelocityMax (1 / 1000) = false) :
    (CalculateMotion M Owner DeltaTime Self).Self.VelocitySmoothed
        = FInterpTo Self.VelocitySmoothed (VelocityDelta M Owner Self DeltaTime) DeltaTime
            (GetMappedRangeValueClamped (0, 1) (1, 20) Self.VelocitySmoothing)
      ∧ (CalculateMotion M Owner DeltaTime Self).Locals.RadiusTarget
        = Self.VelocityStrength
          * Clamp ((FInterpTo Self.VelocitySmoothed (VelocityDelta M Owner Self DeltaTime)
                DeltaTime (GetMappedRangeValueClamped (0, 1) (1, 20) Self.VelocitySmoothing)
              - Self.VelocityMin) / (Self.VelocityMax - Self.VelocityMin)) 0 1 := by
  constructor
  · simp only [CalculateMotion, hMID, hForce, MeasuredMode, AngularStep, LinearStep,
      VelocityStep, AccelerationStep, hAng, hVel, hAcc, hRange, Bool.not_false, if_true,
      Bool.or_false, Bool.false_eq_true, if_false, Bool.true_or, Bool.or_true]
  · simp only [CalculateMotion, hMID, hForce, MeasuredMode, AngularStep, LinearStep,
      VelocityStep, AccelerationStep, hAng, hVel, hAcc, hRange, Bool.not_false, if_true,
      Bool.or_false, Bool.false_eq_true, if_false, Bool.true_or, Bool.or_true]
    ring

/-- Witness of the amended C8: the scenario of the claim. -/
theorem velocity_only_RadiusTarget_witness :
    IsNearlyEqual VelocityOnlyComponent.VelocityMin VelocityOnlyComponent.VelocityMax
        (1 / 1000) = false
      ∧ (CalculateMotion SampleMath SampleOwner (2 / 125)
          VelocityOnlyComponent).Locals.RadiusTarget
        = VelocityOnlyComponent.VelocityStrength
          * Clamp ((FInterpTo VelocityOnlyComponent.VelocitySmoothed
                (VelocityDelta SampleMath SampleOwner VelocityOnlyComponent (2 / 125)) (2 / 125)
                (GetMappedRangeValueClamped (0, 1) (1, 20)
                  VelocityOnlyComponent.VelocitySmoothing)
              - VelocityOnlyComponent.VelocityMin)
            / (VelocityOnlyComponent.VelocityMax - VelocityOnlyComponent.VelocityMin)) 0 1 :=
  ⟨by norm_num [VelocityOnlyComponent, SampleComponent, MakeComponent, SampleSettings,
      IsNearlyEqual, Abs],
   (velocity_only_RadiusTarget SampleMath SampleOwner (2 / 125) VelocityOnlyComponent
      { Calls := [] } rfl rfl rfl rfl rfl
      (by norm_num [VelocityOnlyComponent, SampleComponent, MakeComponent, SampleSettings,
        IsNearlyEqual, Abs])).2⟩

/-! ## Composition of the radius -/

theorem GetMappedRangeValueClamped_unit (OutputRange : ℚ × ℚ) (Value : ℚ) :
    GetMappedRangeValueClamped (0, 1) OutputRange Value
      = OutputRange.1 + Clamp Value 0 1 * (OutputRange.2 - OutputRange.1) := by
  have h : IsNearlyZero (1 - 0) = false := by
    simp [IsNearlyZero, Abs, UE_SMALL_NUMBER]; norm_num
  simp only [GetMappedRangeValueClamped, GetRangePct, Lerp, h]
  norm_num

theorem Clamp_unit_bounds (X : ℚ) : 0 ≤ Clamp X 0 1 ∧ Clamp X 0 1 ≤ 1 := by
  unfold Clamp
  split
  · norm_num
  · split
    · constructor <;> linarith
    · norm_num

theorem Clamp_unit_of_nonpos (X : ℚ) (h : X ≤ 0) : Clamp X 0 1 = 0 := by
  unfold Clamp
  split
  · rfl
  · have : X = 0 := by linarith
    subst this
    norm_num

theorem Clamp_unit_of_one_le (X : ℚ) (h : 1 ≤ X) : Clamp X 0 1 = 1 := by
  unfold Clamp
  rw [if_neg (by linarith), if_neg (by linarith)]

theorem MeasuredMode_Radius (M : FMath) (Owner : AActor) (DeltaTime : ℚ)
    (Self : UVRTunnellingPro) (L : FMotionLocals)
    (hSome : (Self.bUseAngularVelocity || Self.bUseAcceleration || Self.bUseVelocity) = true) :
    (MeasuredMode M Owner DeltaTime Self L).2.Radius
      = GetMappedRangeValueClamped (0, 1) (3 / 2, 1 - Self.EffectCoverage)
          (MeasuredMode M Owner DeltaTime Self L).2.RadiusTarget := by
  have hS : ActiveSettings
      (LinearStep M Owner DeltaTime (AngularStep M Owner DeltaTime Self L).1
        (AngularStep M Owner DeltaTime Self L).2).1 = ActiveSettings Self := by
    rw [LinearStep_settings, AngularStep_settings]
  have hAng := congrArg FVRTPPreset.bUseAngularVelocity hS
  have hAcc := congrArg FVRTPPreset.bUseAcceleration hS
  have hVel := congrArg FVRTPPreset.bUseVelocity hS
  have hCov := congrArg FVRTPPreset.EffectCoverage hS
  simp only [ActiveSettings] at hAng hAcc hVel hCov
  simp only [MeasuredMode, hAng, hAcc, hVel, hCov, hSome, if_true]

/-- C9: in measured mode with an output material and at least one channel on,
the radius written to the material is the clamped linear remap of `RadiusTarget`
from 0..1 onto 1.5..(1 - EffectCoverage), that is
1.5 + clamp(RadiusTarget, 0, 1) * ((1 - EffectCoverage) - 1.5); so it is 1.5 when
`RadiusTarget` <= 0, it is 1 - EffectCoverage when `RadiusTarget` >= 1, and for
every coverage it lies between 1 - EffectCoverage and 1.5 inclusive. -/
theorem CalculateMotion_measured_Radius (M : FMath) (Owner : AActor) (DeltaTime : ℚ)
    (Self : UVRTunnellingPro) (MID : UMaterialInstanceDynamic)
    (hMID : Self.PostProcessMID = some MID) (hForce : Self.ForceEffect = false)
    (hSome : (Self.bUseAngularVelocity || Self.bUseAcceleration || Self.bUseVelocity) = true) :
    PublishedValues "Radius" (CalculateMotion M Owner DeltaTime Self).Published
        = [(CalculateMotion M Owner DeltaTime Self).Locals.Radius]
      ∧ (CalculateMotion M Owner DeltaTime Self).Locals.Radius
        = 3 / 2 + Clamp (CalculateMotion M Owner DeltaTime Self).Locals.RadiusTarget 0 1
            * ((1 - Self.EffectCoverage) - 3 / 2)
      ∧ ((CalculateMotion M Owner DeltaTime Self).Locals.RadiusTarget ≤ 0
        → (CalculateMotion M Owner DeltaTime Self).Locals.Radius = 3 / 2)
      ∧ (1 ≤ (CalculateMotion M Owner DeltaTime Self).Locals.RadiusTarget
        → (CalculateMotion M Owner DeltaTime Self).Locals.Radius = 1 - Self.EffectCoverage)
      ∧ min (1 - Self.EffectCoverage) (3 / 2) ≤ (CalculateMotion M Owner DeltaTime Self).Locals.Radius
      ∧ (CalculateMotion M Owner DeltaTime Self).Locals.Radius
        ≤ max (1 - Self.EffectCoverage) (3 / 2) := by
  have hPub := CalculateMotion_Published_of_material M Owner DeltaTime Self MID hMID
  have hR : (CalculateMotion M Owner DeltaTime Self).Locals.Radius
      = 3 / 2 + Clamp (CalculateMotion M Owner DeltaTime Self).Locals.RadiusTarget 0 1
          * ((1 - Self.EffectCoverage) - 3 / 2) := by
    have h := MeasuredMode_Radius M Owner DeltaTime Self
      { Radius := 0, RadiusTarget := 0, VelocityFinal := 0 } hSome
    rw [GetMappedRangeValueClamped_unit] at h
    simp only [CalculateMotion, hMID, hForce, Bool.not_false, if_true]
    exact h
  obtain ⟨hc0, hc1⟩ :=
    Clamp_unit_bounds (CalculateMotion M Owner DeltaTime Self).Locals.RadiusTarget
  refine ⟨?_, hR, ?_, ?_, ?_, ?_⟩
  · rw [hPub]
    simp [PublishedValues_cons, PublishedValues_Radius_DirectionalShift]
  · intro hT
    rw [hR, Clamp_unit_of_nonpos _ hT]
    ring
  · intro hT
    rw [hR, Clamp_unit_of_one_le _ hT]
    ring
  · rw [hR]
    rcases le_total (1 - Self.EffectCoverage) (3 / 2) with h | h
    · rw [min_eq_left h]
      nlinarith
    · rw [min_eq_right h]
      nlinarith
  · rw [hR]
    rcases le_total (1 - Self.EffectCoverage) (3 / 2) with h | h
    · rw [max_eq_right h]
      nlinarith
    · rw [max_eq_left h]
      nlinarith

/-- Witness of C9: the velocity scenario, where `RadiusTarget` is 1 and the
coverage 0.75. -/
theorem CalculateMotion_measured_Radius_witness :
    (VelocityOnlyComponent.bUseAngularVelocity || VelocityOnlyComponent.bUseAcceleration
        || VelocityOnlyComponent.bUseVelocity) = true
      ∧ (CalculateMotion SampleMath SampleOwner (2 / 125) VelocityOnlyComponent).Locals.Radius
        = 3 / 2 + Clamp (CalculateMotion SampleMath SampleOwner (2 / 125)
              VelocityOnlyComponent).Locals.RadiusTarget 0 1
            * ((1 - VelocityOnlyComponent.EffectCoverage) - 3 / 2) :=
  ⟨rfl, (CalculateMotion_measured_Radius SampleMath SampleOwner (2 / 125) VelocityOnlyComponent
    { Calls := [] } rfl rfl rfl).2.1⟩

/-! ## Composition of `RadiusTarget` -/

/-- C10, refuted as stated: with only the angular channel on (range 0..90, knob
1, strength 1), an owner turned by 90 degrees and `DeltaTime` 1, the smoothed
angle after the tick is 1, so the sum of the claim is 1 * 1 + 0 + 0 = 1, but
`RadiusTarget` is 0.5. -/
theorem angular_only_RadiusTarget_is_half :
    AngularOnlyComponent.ForceEffect = false
      ∧ (CalculateMotion SampleMath TurnedOwner 1 AngularOnlyComponent).Self.AngleSmoothed = 1
      ∧ (CalculateMotion SampleMath TurnedOwner 1 AngularOnlyComponent).Self.AngleSmoothed
          * AngularOnlyComponent.AngularStrength + 0 + 0 = 1
      ∧ (CalculateMotion SampleMath TurnedOwner 1 AngularOnlyComponent).Locals.RadiusTarget
        = 1 / 2 := by
  refine ⟨rfl, ?_, ?_, ?_⟩
  all_goals
    norm_num [CalculateMotion, MeasuredMode, AngularStep, LinearStep, VelocityStep,
      AccelerationStep, AngularOnlyComponent, SampleComponent, MakeComponent, SampleSettings,
      TurnedOwner, SampleOwner, SampleMath, IsNearlyEqual, Abs, InterpSpeed_eq, Clamp,
      FInterpTo, UE_SMALL_NUMBER, AngleDelta, FMath.Div, FVector.DotProduct]

/-- C10, amended: in measured mode with an output material, `RadiusTarget` is the
sum over the channels that are on of the channel's output for the tick times
its weight, where the weight of the angular channel is half its configured
strength: AngleSmoothed * (AngularStrength * 0.5) + VelocityFinal *
VelocityStrength + AccelerationSmoothed * AccelerationStrength, a channel that is
off contributing 0. -/
theorem CalculateMotion_RadiusTarget_sum (M : FMath) (Owner : AActor) (DeltaTime : ℚ)
    (Self : UVRTunnellingPro) (MID : UMaterialInstanceDynamic)
    (hMID : Self.PostProcessMID = some MID) (hForce : Self.ForceEffect = false) :
    (CalculateMotion M Owner DeltaTime Self).Locals.RadiusTarget
      = (if Self.bUseAngularVelocity then
            (CalculateMotion M Owner DeltaTime Self).Self.AngleSmoothed
              * (Self.AngularStrength * (1 / 2))
          else 0)
        + (if Self.bUseVelocity then
            (CalculateMotion M Owner DeltaTime Self).Locals.VelocityFinal * Self.VelocityStrength
          else 0)
        + (if Self.bUseAcceleration then
            (CalculateMotion M Owner DeltaTime Self).Self.AccelerationSmoothed
              * Self.AccelerationStrength
          else 0) := by
  rcases Bool.eq_false_or_eq_true Self.bUseAngularVelocity with hAng | hAng <;>
  rcases Bool.eq_false_or_eq_true Self.bUseVelocity with hVel | hVel <;>
  rcases Bool.eq_false_or_eq_true Self.bUseAcceleration with hAcc | hAcc <;>
  simp only [CalculateMotion, hMID, hForce, MeasuredMode, AngularStep, LinearStep,
    VelocityStep, AccelerationStep, hAng, hVel, hAcc, Bool.not_false, if_true,
    Bool.or_false, Bool.false_eq_true, if_false, Bool.true_or, Bool.or_true, Bool.or_self] <;>
  ring

/-- Witness of the amended C10: the angular-only sample, where the sum is
1 * (1 * 0.5) + 0 + 0. -/
theorem CalculateMotion_RadiusTarget_sum_witness :
    AngularOnlyComponent.ForceEffect = false
      ∧ (CalculateMotion SampleMath TurnedOwner 1 AngularOnlyComponent).Locals.RadiusTarget
        = (if AngularOnlyComponent.bUseAngularVelocity then
              (CalculateMotion SampleMath TurnedOwner 1 AngularOnlyComponent).Self.AngleSmoothed
                * (AngularOnlyComponent.AngularStrength * (1 / 2))
            else 0)
          + (if AngularOnlyComponent.bUseVelocity then
              (CalculateMotion SampleMath TurnedOwner 1 AngularOnlyComponent).Locals.VelocityFinal
                * AngularOnlyComponent.VelocityStrength
            else 0)
          + (if AngularOnlyComponent.bUseAcceleration then
              (CalculateMotion SampleMath TurnedOwner 1
                  AngularOnlyComponent).Self.AccelerationSmoothed
                * AngularOnlyComponent.AccelerationStrength
            else 0) :=
  ⟨rfl, CalculateMotion_RadiusTarget_sum SampleMath TurnedOwner 1 AngularOnlyComponent
    { Calls := [] } rfl rfl⟩

/-! ## The smoothing step -/

theorem FInterpTo_self (Current DeltaTime InterpSpeed : ℚ) :
    FInterpTo Current Current DeltaTime InterpSpeed = Current := by
  unfold FInterpTo
  split
  · rfl
  · norm_num [UE_SMALL_NUMBER]

theorem FInterpTo_between (Current Target DeltaTime InterpSpeed : ℚ) :
    min Current Target ≤ FInterpTo Current Target DeltaTime InterpSpeed
      ∧ FInterpTo Current Target DeltaTime InterpSpeed ≤ max Current Target := by
  unfold FInterpTo
  split
  · exact ⟨min_le_right _ _, le_max_right _ _⟩
  · simp only []
    split
    · exact ⟨min_le_right _ _, le_max_right _ _⟩
    · obtain ⟨h0, h1⟩ := Clamp_unit_bounds (DeltaTime * InterpSpeed)
      rcases le_total Current Target with h | h
      · rw [min_eq_left h, max_eq_right h]
        constructor <;> nlinarith
      · rw [min_eq_right h, max_eq_left h]
        constructor <;> nlinarith

theorem FInterpTo_of_one_le (Current Target DeltaTime InterpSpeed : ℚ)
    (h : 1 ≤ DeltaTime * InterpSpeed) :
    FInterpTo Current Target DeltaTime InterpSpeed = Target := by
  unfold FInterpTo
  split
  · rfl
  · simp only []
    split
    · rfl
    · rw [Clamp_unit_of_one_le _ h]
      ring

/-- C11: the smoothing step never overshoots.  For every current value, target
and `DeltaTime` (negative and arbitrarily large ones included) and every
interpolation speed from 1 to 20, `FInterpTo` lies in the closed interval between
the current value and the target; a value already at the target stays there;
and the result is the target whenever `DeltaTime * InterpSpeed` >= 1. -/
theorem FInterpTo_never_overshoots (Current Target DeltaTime InterpSpeed : ℚ)
    (hSpeed : 1 ≤ InterpSpeed ∧ InterpSpeed ≤ 20) :
    min Current Target ≤ FInterpTo Current Target DeltaTime InterpSpeed
      ∧ FInterpTo Current Target DeltaTime InterpSpeed ≤ max Current Target
      ∧ FInterpTo Current Current DeltaTime InterpSpeed = Current
      ∧ (1 ≤ DeltaTime * InterpSpeed
        → FInterpTo Current Target DeltaTime InterpSpeed = Target)
      ∧ FInterpTo Current Target DeltaTime InterpSpeed
        = (if (Target - Current) * (Target - Current) < UE_SMALL_NUMBER then Target
          else Current + (Target - Current) * Clamp (DeltaTime * InterpSpeed) 0 1) := by
  refine ⟨(FInterpTo_between _ _ _ _).1, (FInterpTo_between _ _ _ _).2, FInterpTo_self _ _ _,
    FInterpTo_of_one_le _ _ _ _, ?_⟩
  have hpos : ¬ InterpSpeed ≤ 0 := by linarith [hSpeed.1]
  simp only [FInterpTo, hpos, if_false]

/-- Witness of C11: from 0 toward 1 at speed 10.5, over a frame of 0.016 s
(result 0.168), over a spike of 1000 s and over a negative step. -/
theorem FInterpTo_never_overshoots_witness :
    ((1 : ℚ) ≤ 21 / 2 ∧ (21 / 2 : ℚ) ≤ 20)
      ∧ min (0 : ℚ) 1 ≤ FInterpTo 0 1 (2 / 125) (21 / 2)
      ∧ FInterpTo 0 1 (2 / 125) (21 / 2) ≤ max (0 : ℚ) 1
      ∧ FInterpTo 0 1 (2 / 125) (21 / 2) = 21 / 125
      ∧ FInterpTo 0 1 1000 (21 / 2) = 1
      ∧ FInterpTo 0 1 (-1) (21 / 2) = 0 :=
  have h := FInterpTo_never_overshoots 0 1 (2 / 125) (21 / 2) (by norm_num)
  ⟨by norm_num, h.1, h.2.1,
    by norm_num [FInterpTo, Clamp, UE_SMALL_NUMBER],
    by norm_num [FInterpTo, Clamp, UE_SMALL_NUMBER],
    by norm_num [FInterpTo, Clamp, UE_SMALL_NUMBER]⟩

/-! ## The acceleration channel -/

theorem Abs_eq_abs (A : ℚ) : Abs A = |A| := by
  unfold Abs
  split
  · rw [abs_of_neg (by assumption)]
  · rw [abs_of_nonneg (by linarith)]

theorem FInterpTo_unit (Current Target DeltaTime InterpSpeed : ℚ)
    (hc0 : 0 ≤ Current) (hc1 : Current ≤ 1) (ht0 : 0 ≤ Target) (ht1 : Target ≤ 1) :
    0 ≤ FInterpTo Current Target DeltaTime InterpSpeed
      ∧ FInterpTo Current Target DeltaTime InterpSpeed ≤ 1 := by
  obtain ⟨hlo, hhi⟩ := FInterpTo_between Current Target DeltaTime InterpSpeed
  exact ⟨le_trans (le_min hc0 ht0) hlo, le_trans hhi (max_le hc1 ht1)⟩

theorem IsNearlyEqual_false_of_lt (A B Tolerance : ℚ) (h : Tolerance < |A - B|) :
    IsNearlyEqual A B Tolerance = false := by
  unfold IsNearlyEqual
  rw [Abs_eq_abs]
  simpa using h

theorem abs_mul_le_of_unit (A S : ℚ) (h0 : 0 ≤ A) (h1 : A ≤ 1) : |A * S| ≤ |S| := by
  rw [abs_mul, abs_of_nonneg h0]
  exact mul_le_of_le_one_left (abs_nonneg S) h1

/-- C15: invariant of the acceleration channel.  If the smoothed acceleration is
within 0..1 before a measured-mode tick with the acceleration channel on, a
non-degenerate acceleration range (|AccelerationMin - AccelerationMax| > 0.001)
and `DeltaTime` > 0, it is within 0..1 after the tick, for every speed sample and
every smoothing knob; the amount the acceleration block adds to `RadiusTarget`
is the new smoothed value times `AccelerationStrength`, of magnitude at most
|AccelerationStrength|. -/
theorem CalculateMotion_AccelerationSmoothed_unit (M : FMath) (Owner : AActor)
    (DeltaTime : ℚ) (Self : UVRTunnellingPro) (MID : UMaterialInstanceDynamic)
    (L : FMotionLocals)
    (hMID : Self.PostProcessMID = some MID) (hForce : Self.ForceEffect = false)
    (hAcc : Self.bUseAcceleration = true)
    (hRange : 1 / 1000 < |Self.AccelerationMin - Self.AccelerationMax|)
    (_hDeltaTime : 0 < DeltaTime)
    (h0 : 0 ≤ Self.AccelerationSmoothed) (h1 : Self.AccelerationSmoothed ≤ 1) :
    0 ≤ (CalculateMotion M Owner DeltaTime Self).Self.AccelerationSmoothed
      ∧ (CalculateMotion M Owner DeltaTime Self).Self.AccelerationSmoothed ≤ 1
      ∧ |(CalculateMotion M Owner DeltaTime Self).Self.AccelerationSmoothed
            * Self.AccelerationStrength| ≤ |Self.AccelerationStrength|
      ∧ (AccelerationStep M Owner DeltaTime Self L).1.AccelerationSmoothed
        = (CalculateMotion M Owner DeltaTime Self).Self.AccelerationSmoothed
      ∧ (AccelerationStep M Owner DeltaTime Self L).2.RadiusTarget - L.RadiusTarget
        = (AccelerationStep M Owner DeltaTime Self L).1.AccelerationSmoothed
          * Self.AccelerationStrength
      ∧ |(AccelerationStep M Owner DeltaTime Self L).2.RadiusTarget - L.RadiusTarget|
        ≤ |Self.AccelerationStrength| := by
  have hDeg := IsNearlyEqual_false_of_lt _ _ _ hRange
  have hTick : (CalculateMotion M Owner DeltaTime Self).Self.AccelerationSmoothed
      = FInterpTo Self.AccelerationSmoothed
          (Clamp ((AccelerationDelta M Owner Self DeltaTime - Self.AccelerationMin)
            / (Self.AccelerationMax - Self.AccelerationMin)) 0 1)
          DeltaTime (GetMappedRangeValueClamped (0, 1) (1, 20) Self.AccelerationSmoothing) := by
    rcases Bool.eq_false_or_eq_true Self.bUseAngularVelocity with hAng | hAng <;>
    rcases Bool.eq_false_or_eq_true Self.bUseVelocity with hVel | hVel <;>
    simp only [CalculateMotion, hMID, hForce, MeasuredMode, AngularStep, LinearStep,
      VelocityStep, AccelerationStep, AccelerationDelta, hAng, hVel, hAcc, hDeg,
      Bool.not_false, if_true, Bool.or_false, Bool.false_eq_true, if_false, Bool.true_or,
      Bool.or_true, Bool.or_self]
  have hStep : (AccelerationStep M Owner DeltaTime Self L).1.AccelerationSmoothed
      = FInterpTo Self.AccelerationSmoothed
          (Clamp ((AccelerationDelta M Owner Self DeltaTime - Self.AccelerationMin)
            / (Self.AccelerationMax - Self.AccelerationMin)) 0 1)
          DeltaTime (GetMappedRangeValueClamped (0, 1) (1, 20) Self.AccelerationSmoothing) := by
    simp only [AccelerationStep, hAcc, hDeg, Bool.not_false, if_true]
  have hAdd : (AccelerationStep M Owner DeltaTime Self L).2.RadiusTarget - L.RadiusTarget
      = (AccelerationStep M Owner DeltaTime Self L).1.AccelerationSmoothed
        * Self.AccelerationStrength := by
    simp only [AccelerationStep, hAcc, hDeg, Bool.not_false, if_true]
    ring
  obtain ⟨hlo, hhi⟩ := FInterpTo_unit Self.AccelerationSmoothed
    (Clamp ((AccelerationDelta M Owner Self DeltaTime - Self.AccelerationMin)
      / (Self.AccelerationMax - Self.AccelerationMin)) 0 1)
    DeltaTime (GetMappedRangeValueClamped (0, 1) (1, 20) Self.AccelerationSmoothing)
    h0 h1 (Clamp_unit_bounds _).1 (Clamp_unit_bounds _).2
  refine ⟨?_, ?_, ?_, ?_, hAdd, ?_⟩
  · rw [hTick]; exact hlo
  · rw [hTick]; exact hhi
  · rw [hTick]; exact abs_mul_le_of_unit _ _ hlo hhi
  · rw [hTick, hStep]
  · rw [hAdd, hStep]; exact abs_mul_le_of_unit _ _ hlo hhi

/-- Witness of C15: the acceleration-only sample, speed going from 0 to 1 in a
tick of 0.5 s. -/
theorem CalculateMotion_AccelerationSmoothed_unit_witness :
    (0 : ℚ) < 1 / 2
      ∧ 0 ≤ (CalculateMotion SampleMath SampleOwner (1 / 2)
          AccelerationOnlyComponent).Self.AccelerationSmoothed
      ∧ (CalculateMotion SampleMath SampleOwner (1 / 2)
          AccelerationOnlyComponent).Self.AccelerationSmoothed ≤ 1 :=
  have h := CalculateMotion_AccelerationSmoothed_unit SampleMath SampleOwner (1 / 2)
    AccelerationOnlyComponent { Calls := [] } InitialLocals rfl rfl rfl
    (by norm_num [AccelerationOnlyComponent, SampleComponent, MakeComponent, SampleSettings])
    (by norm_num)
    (by norm_num [AccelerationOnlyComponent, SampleComponent, MakeComponent])
    (by norm_num [AccelerationOnlyComponent, SampleComponent, MakeComponent])
  ⟨by norm_num, h.1, h.2.1⟩



/-! ## Tracking and the motion state -/

theorem PollControllerState_Component (World : FTickWorld) (State : FTickState) :
    (PollControllerState World State).1.Component = State.Component
      ∧ (PollControllerState World State).1.bIsActive = State.bIsActive
      ∧ (PollControllerState World State).1.RelativeLocation = State.RelativeLocation
      ∧ (PollControllerState World State).1.RelativeRotation = State.RelativeRotation := by
  unfold PollControllerState
  simp only []
  split
  · split
    · exact ⟨rfl, rfl, rfl, rfl⟩
    · split
      · split <;> exact ⟨rfl, rfl, rfl, rfl⟩
      · exact ⟨rfl, rfl, rfl, rfl⟩
  · exact ⟨rfl, rfl, rfl, rfl⟩

/-- C12, refuted as stated: in the tracking-lost world the poll returns false,
yet the tick of the active sample component runs `CalculateMotion`: the last
position goes from the origin to (1, 0, 0) and the smoothed velocity from 0 to
10.5. -/
theorem TickComponent_untracked_changes_motion_state :
    (PollControllerState TrackingLostWorld SampleTickState).2 = none
      ∧ MotionState SampleTickState.Component
        = { LastPosition := ⟨0, 0, 0⟩, LastForward := ⟨1, 0, 0⟩, LastSpeed := 0,
            AngleSmoothed := 0, VelocitySmoothed := 0, AccelerationSmoothed := 0 }
      ∧ (TickComponent SampleMath TrackingLostWorld (1 / 60) SampleTickState).map
          (fun T => (T.bTracked, MotionState T.Component))
        = some (false,
            { LastPosition := ⟨1, 0, 0⟩, LastForward := ⟨1, 0, 0⟩, LastSpeed := 0,
              AngleSmoothed := 0, VelocitySmoothed := 21 / 2, AccelerationSmoothed := 0 }) := by
  refine ⟨?_, ?_, ?_⟩
  · simp [PollControllerState, PollMotionControllers, TrackingLostWorld, SampleTickState]
  · simp [MotionState, SampleTickState, VelocityOnlyComponent, SampleComponent, MakeComponent]
  · norm_num [TickComponent, InitOnFirstTick, TickActive, PollControllerState, PollMotionControllers,
      TrackingLostWorld,
      SampleTickState, MotionState, CalculateMotion, MeasuredMode, AngularStep, LinearStep,
      VelocityStep, AccelerationStep, VelocityOnlyComponent, SampleComponent, MakeComponent,
      SampleSettings, SampleOwner, IsNearlyEqual, Abs, InterpSpeed_eq, Clamp, FInterpTo,
      UE_SMALL_NUMBER, VelocityDelta, FMath.Div, FVector.Distance, SampleMath_Sqrt_one]

theorem PollControllerState_with_Component (World : FTickWorld) (State : FTickState)
    (C : UVRTunnellingPro) :
    PollControllerState World { State with Component := C }
      = ({ (PollControllerState World State).1 with Component := C },
          (PollControllerState World State).2) := by
  unfold PollControllerState
  simp only []
  split
  · split
    · rfl
    · split
      · split <;> rfl
      · rfl
  · rfl

theorem ApplyBackgroundMode_motion (Self : UVRTunnellingPro) (MID : UMaterialInstanceDynamic)
    (hMID : Self.PostProcessMID = some MID) :
    ∃ S1 MID1, ApplyBackgroundMode Self = some S1 ∧ S1.PostProcessMID = some MID1
      ∧ MotionState S1 = MotionState Self := by
  unfold ApplyBackgroundMode
  simp only [hMID]
  split <;> exact ⟨_, _, rfl, rfl, rfl⟩

theorem ApplyMaskMode_motion (Self : UVRTunnellingPro) (MID : UMaterialInstanceDynamic)
    (hMID : Self.PostProcessMID = some MID) :
    ∃ S1 MID1, ApplyMaskMode Self = some S1 ∧ S1.PostProcessMID = some MID1
      ∧ MotionState S1 = MotionState Self := by
  unfold ApplyMaskMode
  simp only [hMID]
  split <;> exact ⟨_, _, rfl, rfl, rfl⟩

theorem ApplyColor_motion (Self : UVRTunnellingPro) (MID : UMaterialInstanceDynamic)
    (hMID : Self.PostProcessMID = some MID) :
    ∃ S1 MID1, ApplyColor Self Self.ApplyEffectColor = some S1 ∧ S1.PostProcessMID = some MID1
      ∧ MotionState S1 = MotionState Self := by
  unfold ApplyColor SetEffectColor
  simp only [hMID]
  exact ⟨_, _, rfl, rfl, rfl⟩

theorem SetFeather_motion (Self : UVRTunnellingPro) (MID : UMaterialInstanceDynamic)
    (hMID : Self.PostProcessMID = some MID) :
    ∃ S1 MID1, SetFeather Self Self.EffectFeather = some S1 ∧ S1.PostProcessMID = some MID1
      ∧ MotionState S1 = MotionState Self := by
  unfold SetFeather
  simp only [hMID]
  exact ⟨_, _, rfl, rfl, rfl⟩

theorem SetStencilMask_motion (Self : UVRTunnellingPro) (MID : UMaterialInstanceDynamic)
    (hMID : Self.PostProcessMID = some MID) :
    ∃ S1 MID1, SetStencilMask Self Self.StencilIndex true = some S1
      ∧ S1.PostProcessMID = some MID1 ∧ MotionState S1 = MotionState Self := by
  unfold SetStencilMask
  simp only [hMID]
  exact ⟨_, _, rfl, rfl, rfl⟩

theorem UpdatePostProcessSettings_motion (Self : UVRTunnellingPro)
    (MID : UMaterialInstanceDynamic) (hMID : Self.PostProcessMID = some MID) :
    ∃ S1 MID1, UpdatePostProcessSettings Self = some S1 ∧ S1.PostProcessMID = some MID1
      ∧ MotionState S1 = MotionState Self := by
  unfold UpdatePostProcessSettings
  obtain ⟨S1, MID1, e1, m1, a1⟩ := ApplyBackgroundMode_motion Self MID hMID
  obtain ⟨S2, MID2, e2, m2, a2⟩ := ApplyMaskMode_motion S1 MID1 m1
  obtain ⟨S3, MID3, e3, m3, a3⟩ := ApplyColor_motion S2 MID2 m2
  obtain ⟨S4, MID4, e4, m4, a4⟩ := SetFeather_motion S3 MID3 m3
  obtain ⟨S5, MID5, e5, m5, a5⟩ := SetStencilMask_motion S4 MID4 m4
  refine ⟨S5, MID5, ?_, m5, ?_⟩
  · simp [hMID, e1, e2, e3, e4, e5]
  · rw [a5, a4, a3, a2, a1]

theorem TickActive_untracked (M : FMath) (World : FTickWorld) (DeltaTime : ℚ)
    (S1 : FTickState) (hPoll : (PollControllerState World S1).2 = none) :
    (TickActive M World DeltaTime S1).RelativeLocation = S1.RelativeLocation
      ∧ (TickActive M World DeltaTime S1).RelativeRotation = S1.RelativeRotation
      ∧ (S1.bIsActive = true → (TickActive M World DeltaTime S1).bTracked = false)
      ∧ MotionState (TickActive M World DeltaTime S1).Component
        = (if S1.bIsActive && S1.Component.PostProcessMID.isSome then
            MotionState (CalculateMotion M World.Owner DeltaTime S1.Component).Self
          else MotionState S1.Component) := by
  obtain ⟨hpC, _, hpL, hpR⟩ := PollControllerState_Component World S1
  unfold TickActive
  rcases Bool.eq_false_or_eq_true S1.bIsActive with hAct | hAct
  · simp only [hAct, if_true, hPoll, Option.isSome_none, Bool.true_and, hpC]
    cases hMID : S1.Component.PostProcessMID with
    | none => simp [hpL, hpR, hpC]
    | some MID =>
      simp only [Option.isSome_some, if_true]
      refine ⟨hpL, hpR, ?_, ?_⟩
      · simp
      · rfl
  · simp [hAct]

theorem InitCapture_spec (World : FTickWorld) (Self : UVRTunnellingPro) :
    ∃ S1, InitCapture World Self = some S1
      ∧ MotionState S1 = MotionState Self
      ∧ ActiveSettings S1 = ActiveSettings Self
      ∧ S1.PostProcessMID.isSome
        = ((World.Owner.PlayerCamera.isSome && World.XRSystem.isSome)
          || Self.PostProcessMID.isSome) := by
  unfold InitCapture
  cases hCam : World.Owner.PlayerCamera with
  | none => exact ⟨Self, rfl, rfl, rfl, by simp⟩
  | some Cam =>
    simp only []
    rcases Bool.eq_false_or_eq_true World.XRSystem.isSome with hXR | hXR
    · obtain ⟨S1, MID1, e1, m1, a1⟩ := UpdatePostProcessSettings_motion
        { Self with PostProcessMID := some { Calls := [] } } { Calls := [] } rfl
      obtain ⟨S2, e2, a2, _⟩ := UpdatePostProcessSettings_spec
        { Self with PostProcessMID := some { Calls := [] } }
      have hS : S2 = S1 := Option.some.inj (e2.symm.trans e1)
      subst hS
      rw [if_pos hXR, e1]
      simp only [Option.some_bind, m1]
      exact ⟨_, rfl, a1, a2, by simp [hXR]⟩
    · rw [if_neg (by simp [hXR])]
      exact ⟨Self, rfl, rfl, rfl, by simp [hXR]⟩

theorem InitSkybox_spec (World : FTickWorld) (Self : UVRTunnellingPro) :
    MotionState (InitSkybox World Self) = MotionState Self
      ∧ ActiveSettings (InitSkybox World Self) = ActiveSettings Self
      ∧ (InitSkybox World Self).PostProcessMID = Self.PostProcessMID := by
  unfold InitSkybox
  split <;> exact ⟨rfl, rfl, rfl⟩

theorem InitOnFirstTick_spec (World : FTickWorld) (Self : UVRTunnellingPro) :
    ∃ C1, InitOnFirstTick World Self = some C1
      ∧ MotionState C1 = MotionState Self
      ∧ ActiveSettings C1 = ActiveSettings Self
      ∧ C1.PostProcessMID.isSome
        = (if Self.CaptureInit then Self.PostProcessMID.isSome
          else (World.Owner.PlayerCamera.isSome && World.XRSystem.isSome)
            || Self.PostProcessMID.isSome)
      ∧ (Self.CaptureInit = true → C1 = Self) := by
  unfold InitOnFirstTick
  rcases Bool.eq_false_or_eq_true Self.CaptureInit with h | h
  · exact ⟨Self, by simp [h], rfl, rfl, by simp [h], fun _ => rfl⟩
  · obtain ⟨S1, e1, a1, s1, m1⟩ := InitCapture_spec World { Self with CaptureInit := true }
    obtain ⟨b1, b2, b3⟩ := InitSkybox_spec World S1
    refine ⟨InitSkybox World S1, ?_, ?_, ?_, ?_, ?_⟩
    · simp [h, e1]
    · rw [b1, a1]
      rfl
    · rw [b2, s1]
      rfl
    · rw [b3, m1]
      simp [h]
    · intro h2
      rw [h] at h2
      exact absurd h2 (by simp)

/-- C12, amended: a tick whose pose poll reports tracking invalid always
completes; it leaves the relative location and rotation as they were and, when
the component is active, records `bTracked` = false; but it does not skip the
motion computation.  Let C1 be the component that the first block of the tick
produces: the component itself once `CaptureInit` is set, and otherwise the
component after `InitCapture` and `InitSkybox`, which has the same settings and
motion state and has an output material exactly when it had one before or the
owner has a camera and the engine a tracking system.  When the component is
active and C1 has an output material, the motion state after the tick is the
one `CalculateMotion` produces from C1; otherwise it is the motion state before
the tick. -/
theorem TickComponent_untracked_motion_state (M : FMath) (World : FTickWorld)
    (DeltaTime : ℚ) (State : FTickState)
    (hPoll : (PollControllerState World State).2 = none) :
    ∃ T C1, InitOnFirstTick World State.Component = some C1
      ∧ TickComponent M World DeltaTime State = some T
      ∧ MotionState C1 = MotionState State.Component
      ∧ ActiveSettings C1 = ActiveSettings State.Component
      ∧ C1.PostProcessMID.isSome
        = (if State.Component.CaptureInit then State.Component.PostProcessMID.isSome
          else (World.Owner.PlayerCamera.isSome && World.XRSystem.isSome)
            || State.Component.PostProcessMID.isSome)
      ∧ T.RelativeLocation = State.RelativeLocation
      ∧ T.RelativeRotation = State.RelativeRotation
      ∧ (State.bIsActive = true → T.bTracked = false)
      ∧ MotionState T.Component
        = (if State.bIsActive && C1.PostProcessMID.isSome then
            MotionState (CalculateMotion M World.Owner DeltaTime C1).Self
          else MotionState State.Component) := by
  obtain ⟨C1, hC1, hMotion, hSettings, hMat, _⟩ := InitOnFirstTick_spec World State.Component
  have hPoll1 : (PollControllerState World { State with Component := C1 }).2 = none := by
    rw [PollControllerState_with_Component]
    exact hPoll
  obtain ⟨hL, hR, hT, hM⟩ :=
    TickActive_untracked M World DeltaTime { State with Component := C1 } hPoll1
  refine ⟨TickActive M World DeltaTime { State with Component := C1 }, C1, hC1, ?_, hMotion,
    hSettings, hMat, hL, hR, hT, ?_⟩
  · unfold TickComponent
    simp only [hC1, Option.map_some']
  · rw [hM]
    split
    · rfl
    · exact hMotion

/-- Witness of the amended C12: the first tick of the sample component in the
tracking-lost world.  The poll fails, `InitCapture` creates the output material
(the owner has a camera and there is a tracking system), and `CalculateMotion`
runs: the last position goes to (1, 0, 0) and the smoothed velocity to 10.5. -/
theorem TickComponent_untracked_motion_state_witness :
    (PollControllerState TrackingLostWorld FirstTickState).2 = none
      ∧ FirstTickState.Component.CaptureInit = false
      ∧ FirstTickState.Component.PostProcessMID = none
      ∧ (TickComponent SampleMath TrackingLostWorld (1 / 60) FirstTickState).map
          (fun T => (T.bTracked, MotionState T.Component))
        = some (false,
            { LastPosition := ⟨1, 0, 0⟩, LastForward := ⟨1, 0, 0⟩, LastSpeed := 0,
              AngleSmoothed := 0, VelocitySmoothed := 21 / 2, AccelerationSmoothed := 0 })
      ∧ ∃ T C1, InitOnFirstTick TrackingLostWorld FirstTickState.Component = some C1
        ∧ TickComponent SampleMath TrackingLostWorld (1 / 60) FirstTickState = some T
        ∧ MotionState C1 = MotionState FirstTickState.Component
        ∧ ActiveSettings C1 = ActiveSettings FirstTickState.Component
        ∧ C1.PostProcessMID.isSome
          = (if FirstTickState.Component.CaptureInit then
              FirstTickState.Component.PostProcessMID.isSome
            else (TrackingLostWorld.Owner.PlayerCamera.isSome
                && TrackingLostWorld.XRSystem.isSome)
              || FirstTickState.Component.PostProcessMID.isSome)
        ∧ T.RelativeLocation = FirstTickState.RelativeLocation
        ∧ T.RelativeRotation = FirstTickState.RelativeRotation
        ∧ (FirstTickState.bIsActive = true → T.bTracked = false)
        ∧ MotionState T.Component
          = (if FirstTickState.bIsActive && C1.PostProcessMID.isSome then
              MotionState (CalculateMotion SampleMath TrackingLostWorld.Owner (1 / 60) C1).Self
            else MotionState FirstTickState.Component) :=
  ⟨by simp [PollControllerState, PollMotionControllers, TrackingLostWorld, FirstTickState,
      SampleTickState],
   rfl, rfl,
   by norm_num [TickComponent, InitOnFirstTick, InitCapture, InitSkybox,
      UpdatePostProcessSettings, ApplyBackgroundMode, ApplyMaskMode, ApplyColor, SetEffectColor,
      SetFeather, SetStencilMask, ApplyStencilMasks, SetSkyboxHidden, TickActive,
      PollControllerState, PollMotionControllers, TrackingLostWorld, FirstTickState,
      SampleTickState, MotionState, CalculateMotion, MeasuredMode, AngularStep, LinearStep,
      VelocityStep, AccelerationStep, VelocityOnlyComponent, SampleComponent, MakeComponent,
      SampleSettings, SampleOwner, IsNearlyEqual, Abs, InterpSpeed_eq, Clamp, FInterpTo,
      UE_SMALL_NUMBER, VelocityDelta, FMath.Div, FVector.Distance, SampleMath_Sqrt_one],
   TickComponent_untracked_motion_state SampleMath TrackingLostWorld (1 / 60) FirstTickState
    (by simp [PollControllerState, PollMotionControllers, TrackingLostWorld, FirstTickState,
      SampleTickState])⟩

/-! ## The persisted samples -/

/-- C13: `CalculateMotion` writes a persisted previous sample only when a channel
that consumes it ran.  With measured mode meaning an output material and
`ForceEffect` false: `LastForward` becomes the current forward vector when
measured mode and the angular channel hold, and keeps its value otherwise;
`LastPosition` becomes the current position when measured mode and the velocity
or the acceleration channel hold, and keeps its value otherwise; `LastSpeed`
becomes the current speed when measured mode and the acceleration channel hold,
and keeps its value otherwise; so each of them can differ from its old value
only under its condition.  With `ForceEffect` set or the material missing, the
whole motion state (the three samples and the three smoothed values) is
unchanged. -/
theorem CalculateMotion_persisted_samples (M : FMath) (Owner : AActor) (DeltaTime : ℚ)
    (Self : UVRTunnellingPro) :
    (CalculateMotion M Owner DeltaTime Self).Self.LastForward
        = (if Self.PostProcessMID.isSome && !Self.ForceEffect && Self.bUseAngularVelocity then
            Owner.ActorForwardVector
          else Self.LastForward)
      ∧ (CalculateMotion M Owner DeltaTime Self).Self.LastPosition
        = (if Self.PostProcessMID.isSome && !Self.ForceEffect
              && (Self.bUseVelocity || Self.bUseAcceleration) then
            Owner.ActorLocation
          else Self.LastPosition)
      ∧ (CalculateMotion M Owner DeltaTime Self).Self.LastSpeed
        = (if Self.PostProcessMID.isSome && !Self.ForceEffect && Self.bUseAcceleration then
            Owner.Velocity.Size M
          else Self.LastSpeed)
      ∧ ((CalculateMotion M Owner DeltaTime Self).Self.LastForward ≠ Self.LastForward
        → (Self.PostProcessMID.isSome && !Self.ForceEffect && Self.bUseAngularVelocity) = true)
      ∧ ((CalculateMotion M Owner DeltaTime Self).Self.LastPosition ≠ Self.LastPosition
        → (Self.PostProcessMID.isSome && !Self.ForceEffect
            && (Self.bUseVelocity || Self.bUseAcceleration)) = true)
      ∧ ((CalculateMotion M Owner DeltaTime Self).Self.LastSpeed ≠ Self.LastSpeed
        → (Self.PostProcessMID.isSome && !Self.ForceEffect && Self.bUseAcceleration) = true)
      ∧ (Self.ForceEffect = true ∨ Self.PostProcessMID = none
        → MotionState (CalculateMotion M Owner DeltaTime Self).Self = MotionState Self) := by
  have hF : (CalculateMotion M Owner DeltaTime Self).Self.LastForward
      = (if Self.PostProcessMID.isSome && !Self.ForceEffect && Self.bUseAngularVelocity then
          Owner.ActorForwardVector
        else Self.LastForward) := by
    cases hMID : Self.PostProcessMID <;>
    rcases Bool.eq_false_or_eq_true Self.ForceEffect with hForce | hForce <;>
    rcases Bool.eq_false_or_eq_true Self.bUseAngularVelocity with hAng | hAng <;>
    rcases Bool.eq_false_or_eq_true Self.bUseVelocity with hVel | hVel <;>
    rcases Bool.eq_false_or_eq_true Self.bUseAcceleration with hAcc | hAcc <;>
    simp [CalculateMotion, hMID, hForce, MeasuredMode, AngularStep, LinearStep,
      VelocityStep, AccelerationStep, hAng, hVel, hAcc]
  have hP : (CalculateMotion M Owner DeltaTime Self).Self.LastPosition
      = (if Self.PostProcessMID.isSome && !Self.ForceEffect
            && (Self.bUseVelocity || Self.bUseAcceleration) then
          Owner.ActorLocation
        else Self.LastPosition) := by
    cases hMID : Self.PostProcessMID <;>
    rcases Bool.eq_false_or_eq_true Self.ForceEffect with hForce | hForce <;>
    rcases Bool.eq_false_or_eq_true Self.bUseAngularVelocity with hAng | hAng <;>
    rcases Bool.eq_false_or_eq_true Self.bUseVelocity with hVel | hVel <;>
    rcases Bool.eq_false_or_eq_true Self.bUseAcceleration with hAcc | hAcc <;>
    simp [CalculateMotion, hMID, hForce, MeasuredMode, AngularStep, LinearStep,
      VelocityStep, AccelerationStep, hAng, hVel, hAcc]
  have hS : (CalculateMotion M Owner DeltaTime Self).Self.LastSpeed
      = (if Self.PostProcessMID.isSome && !Self.ForceEffect && Self.bUseAcceleration then
          Owner.Velocity.Size M
        else Self.LastSpeed) := by
    cases hMID : Self.PostProcessMID <;>
    rcases Bool.eq_false_or_eq_true Self.ForceEffect with hForce | hForce <;>
    rcases Bool.eq_false_or_eq_true Self.bUseAngularVelocity with hAng | hAng <;>
    rcases Bool.eq_false_or_eq_true Self.bUseVelocity with hVel | hVel <;>
    rcases Bool.eq_false_or_eq_true Self.bUseAcceleration with hAcc | hAcc <;>
    simp [CalculateMotion, hMID, hForce, MeasuredMode, AngularStep, LinearStep,
      VelocityStep, AccelerationStep, hAng, hVel, hAcc]
  refine ⟨hF, hP, hS, ?_, ?_, ?_, ?_⟩
  · intro hne
    by_contra hc
    rw [hF, if_neg hc] at hne
    exact hne rfl
  · intro hne
    by_contra hc
    rw [hP, if_neg hc] at hne
    exact hne rfl
  · intro hne
    by_contra hc
    rw [hS, if_neg hc] at hne
    exact hne rfl
  · rintro (hForce | hMID)
    · cases hMID : Self.PostProcessMID <;> simp [CalculateMotion, hMID, hForce, MotionState]
    · simp [CalculateMotion, hMID, MotionState]

/-- Witness of C13: the sample component with `ForceEffect` set and all channels
on keeps its motion state. -/
theorem CalculateMotion_persisted_samples_witness :
    MotionState (CalculateMotion SampleMath TurnedOwner (1 / 60)
        { AllChannelsComponent with ForceEffect := true }).Self
      = MotionState { AllChannelsComponent with ForceEffect := true } :=
  (CalculateMotion_persisted_samples SampleMath TurnedOwner (1 / 60)
    { AllChannelsComponent with ForceEffect := true }).2.2.2.2.2.2 (Or.inl rfl)

/-! ## Repeated preset activation -/

/-- C14, where the code departs from the claim: the sample component (custom
coverage 0.75) holds the sample preset (coverage 1) with the toggle on, as when
the `Preset` property is edited while the preset is enabled.  After one
`InitFromPreset` the swap coverage is the custom 0.75; a second run caches the
active values again, which by then are those of the preset, so the swap
coverage becomes 1 and the two states differ; a deactivation after the second
run leaves the coverage at 1, and the pre-activation 0.75 is gone from both the
active and the swap settings. -/
theorem InitFromPreset_twice_overwrites_swap :
    PresetEnabledComponent.Preset = some SamplePreset
      ∧ PresetEnabledComponent.bEnablePreset = true
      ∧ PresetEnabledComponent.EffectCoverage = 3 / 4
      ∧ (InitFromPreset PresetEnabledComponent).EffectCoverageSwap = 3 / 4
      ∧ (InitFromPreset (InitFromPreset PresetEnabledComponent)).EffectCoverageSwap = 1
      ∧ SwapSettings (InitFromPreset (InitFromPreset PresetEnabledComponent))
        ≠ SwapSettings (InitFromPreset PresetEnabledComponent)
      ∧ (InitFromPreset
          { InitFromPreset (InitFromPreset PresetEnabledComponent) with
            bEnablePreset := false }).EffectCoverage = 1
      ∧ (InitFromPreset
          { InitFromPreset PresetEnabledComponent with bEnablePreset := false }).EffectCoverage
        = 3 / 4 := by
  have h1 : (InitFromPreset PresetEnabledComponent).EffectCoverageSwap = 3 / 4 := by
    simp [InitFromPreset, CacheSettings, SetPresetData, PresetEnabledComponent, SampleComponent,
      MakeComponent, SampleSettings]
  have h2 : (InitFromPreset (InitFromPreset PresetEnabledComponent)).EffectCoverageSwap = 1 := by
    simp [InitFromPreset, CacheSettings, SetPresetData, PresetEnabledComponent, SampleComponent,
      MakeComponent, SampleSettings, SamplePreset]
  refine ⟨rfl, rfl, rfl, h1, h2, ?_, ?_, ?_⟩
  · intro h
    have h3 := congrArg FVRTPPreset.EffectCoverage h
    simp only [SwapSettings] at h3
    rw [h1, h2] at h3
    norm_num at h3
  · simp [InitFromPreset, CacheSettings, SetPresetData, PresetEnabledComponent, SampleComponent,
      MakeComponent, SampleSettings, SamplePreset]
  · simp [InitFromPreset, CacheSettings, SetPresetData, PresetEnabledComponent, SampleComponent,
      MakeComponent, SampleSettings, SamplePreset]

end VRTP
